import Mathlib

/-!
# Verification of the NFT-marketplace token processor

A shallow embedding, in Lean 4, of the token-model builders and the
persistence layer of the indexer's `token_processor`, translated from:

* `crates/indexer/src/models/token_models/token_utils.rs`
* `crates/indexer/src/models/token_models/token_activities.rs`
* `crates/indexer/src/models/token_models/marketplace_listings.rs`
* `crates/indexer/src/models/token_models/collection_volume.rs`
* `crates/indexer/src/processors/token_processor.rs`

Conventions of the embedding:

* Rust `BigDecimal` values are embedded as `Int` (all on-chain amounts are
  exact integers parsed from decimal strings; exactness is all that matters).
* `chrono::NaiveDateTime` timestamps are embedded as opaque `Int` values.
* Rust `String` operations used by the source (`str::contains`,
  `str::split("::")`, lexicographic `String::cmp`) are re-implemented over
  `List Char` so that they evaluate inside the Lean kernel.
* Fallible Rust code is embedded with `Except`: the source calls
  `TokenEvent::from_event(..).unwrap()`, which panics on a decode error;
  the panic is embedded as an `Except.error` that aborts the enclosing
  computation.
* A Rust `HashMap` accumulator is embedded as an association list with
  overwriting insert (`amInsert`).  Every map in the source is consumed
  either by key lookup or by sorting its values by a key that is unique
  within the map, so the iteration-order nondeterminism of the real
  `HashMap` is irrelevant to the observable results modelled here.
-/

deriving instance DecidableEq for Except

namespace AptosIndexer

/-! ## String primitives (embedding of the Rust `str` operations used) -/

/-- Is `sub` a substring (contiguous) of the character list; embedding of
Rust `str::contains` on the underlying characters. -/
def subOf (sub : List Char) : List Char → Bool
  | [] => sub.isEmpty
  | c :: t => sub.isPrefixOf (c :: t) || subOf sub t

/-- Embedding of Rust `String::contains(pat)` (case-sensitive substring). -/
def strContains (s pat : String) : Bool := subOf pat.data s.data

/-- Splits a character list at every occurrence of the two-character
separator `::`; helper for `splitColons`. -/
def splitColonsAux : List Char → List Char → List (List Char)
  | [], acc => [acc.reverse]
  | ':' :: ':' :: rest, acc => acc.reverse :: splitColonsAux rest []
  | c :: rest, acc => splitColonsAux rest (c :: acc)

/-- Embedding of Rust `str::split("::")` collected to a list. -/
def splitColons (s : String) : List String :=
  (splitColonsAux s.data []).map List.asString

/-- `event_type.split("::").next().unwrap()` — the segment before the first
`::` (the module-address prefix of a fully qualified type tag). -/
def firstSegment (s : String) : String := ((splitColons s).head?).getD ""

/-- The segment after the last `::` (the trailing event/struct name of a
fully qualified type tag). -/
def trailingSegment (s : String) : String := ((splitColons s).getLast?).getD ""

/-- Character comparison by code point; agrees with Rust's `char`/byte
ordering on the ASCII strings appearing in this development. -/
def charLe (a b : Char) : Bool := decide (a ≤ b)

/-- Lexicographic comparison of character lists; helper for `strLe`. -/
def strLeAux : List Char → List Char → Bool
  | [], _ => true
  | _ :: _, [] => false
  | a :: as, b :: bs => if a = b then strLeAux as bs else charLe a b

/-- Embedding of Rust `String::cmp` as a `≤` test (lexicographic); used to
embed the `sort_by(.. .cmp(..))` calls of `process_transactions`. -/
def strLe (a b : String) : Bool := strLeAux a.data b.data

/-! ## Modelled utility functions

`util.rs` is not part of the analysed sources; the two helpers below are
modelled from the specification. -/

/-- Modelled from the spec: `util::hash_str` (not in the analysed sources)
computes the content hash of a canonical display string, "used as a
fixed-width primary key".  It is modelled as an injective tagging function:
the only facts about it this development relies on are that it is injective
and that its output differs from its raw input, both true of the real
hex-encoded SHA-256 digest on the strings appearing here. -/
def hash_str (s : String) : String := "sha256$" ++ s

/-- Modelled from the spec: `util::truncate_str` (not in the analysed
sources) shortens a string to at most `n` characters. -/
def truncate_str (s : String) (n : Nat) : String := (s.data.take n).asString

/-- Modelled from the spec: `util::parse_timestamp` (not in the analysed
sources) converts an on-chain timestamp to a database timestamp; timestamps
are opaque to every claim, so it is embedded as the identity on the opaque
timestamp value. -/
def parse_timestamp (ts : Int) (_txn_version : Int) : Int := ts

/-- `NAME_LENGTH` from `token_utils.rs`. -/
def NAME_LENGTH : Nat := 128

/-! ## Canonical identity types (`token_utils.rs`) -/

/-- `TokenDataIdType` — creator + collection + name. -/
structure TokenDataIdType where
  creator : String
  collection : String
  name : String
deriving DecidableEq, Repr

/-- `CollectionDataIdType` — creator + name. -/
structure CollectionDataIdType where
  creator : String
  name : String
deriving DecidableEq, Repr

/-- `CollectionDataIdType::new`. -/
def CollectionDataIdType.new (creator name : String) : CollectionDataIdType :=
  ⟨creator, name⟩

/-- The `fmt::Display` form `"{creator}::{name}"`. -/
def CollectionDataIdType.to_string (c : CollectionDataIdType) : String :=
  c.creator ++ "::" ++ c.name

/-- `CollectionDataIdType::to_hash`. -/
def CollectionDataIdType.to_hash (c : CollectionDataIdType) : String :=
  hash_str c.to_string

/-- `CollectionDataIdType::get_name_trunc`. -/
def CollectionDataIdType.get_name_trunc (c : CollectionDataIdType) : String :=
  truncate_str c.name NAME_LENGTH

/-- The `fmt::Display` form `"{creator}::{collection}::{name}"`. -/
def TokenDataIdType.to_string (t : TokenDataIdType) : String :=
  t.creator ++ "::" ++ t.collection ++ "::" ++ t.name

/-- `TokenDataIdType::to_hash` — `hash_str` of the display form. -/
def TokenDataIdType.to_hash (t : TokenDataIdType) : String :=
  hash_str t.to_string

/-- `TokenDataIdType::get_collection_trunc`. -/
def TokenDataIdType.get_collection_trunc (t : TokenDataIdType) : String :=
  truncate_str t.collection NAME_LENGTH

/-- `TokenDataIdType::get_name_trunc`. -/
def TokenDataIdType.get_name_trunc (t : TokenDataIdType) : String :=
  truncate_str t.name NAME_LENGTH

/-- `TokenDataIdType::get_collection_data_id_hash`. -/
def TokenDataIdType.get_collection_data_id_hash (t : TokenDataIdType) : String :=
  (CollectionDataIdType.new t.creator t.collection).to_hash

/-- `TokenDataIdType::get_creator_address`. -/
def TokenDataIdType.get_creator_address (t : TokenDataIdType) : String :=
  t.creator

/-- `TokenIdType` — a token data id plus a property version. -/
structure TokenIdType where
  token_data_id : TokenDataIdType
  property_version : Int
deriving DecidableEq, Repr

/-- `TypeInfo` — a fully qualified on-chain type. -/
structure TypeInfo where
  account_address : String
  module_name : String
  struct_name : String
deriving DecidableEq, Repr

/-- The `fmt::Display` form `"{account_address}::{module_name}::{struct_name}"`. -/
def TypeInfo.to_string (t : TypeInfo) : String :=
  t.account_address ++ "::" ++ t.module_name ++ "::" ++ t.struct_name

/-! ## Decoded event payload types (`token_utils.rs`)

One structure per deserialisation schema, fields exactly as in the source;
`BigDecimal` fields become `Int`. -/

structure WithdrawTokenEventType where
  amount : Int
  id : TokenIdType
deriving DecidableEq, Repr

structure DepositTokenEventType where
  amount : Int
  id : TokenIdType
deriving DecidableEq, Repr

structure MintTokenEventType where
  amount : Int
  id : TokenDataIdType
deriving DecidableEq, Repr

structure BurnTokenEventType where
  amount : Int
  id : TokenIdType
deriving DecidableEq, Repr

structure MutateTokenPropertyMapEventType where
  old_id : TokenIdType
  new_id : TokenIdType
deriving DecidableEq, Repr

structure OfferTokenEventType where
  amount : Int
  to_address : String
  token_id : TokenIdType
deriving DecidableEq, Repr

structure CancelTokenOfferEventType where
  amount : Int
  to_address : String
  token_id : TokenIdType
deriving DecidableEq, Repr

structure ClaimTokenEventType where
  amount : Int
  to_address : String
  token_id : TokenIdType
deriving DecidableEq, Repr

structure BlueMoveAuctionEventType where
  id : TokenIdType
  min_selling_price : Int
  duration : Int
  start_time : Int
  owner_address : String
deriving DecidableEq, Repr

structure BlueBidEventType where
  id : TokenIdType
  bid : Int
  bider_address : String
deriving DecidableEq, Repr

structure BlueBuyEventType where
  id : TokenIdType
  buyer_address : String
deriving DecidableEq, Repr

structure BlueChangePriceEventType where
  id : TokenIdType
  amount : Int
  seller_address : String
deriving DecidableEq, Repr

structure BlueClaimCoinsEventType where
  id : TokenIdType
  owner_token : String
deriving DecidableEq, Repr

structure BlueClaimTokenEventType where
  id : TokenIdType
  bider_address : String
deriving DecidableEq, Repr

structure BlueDelistEventType where
  id : TokenIdType
  seller_address : String
deriving DecidableEq, Repr

structure BlueListEventType where
  id : TokenIdType
  amount : Int
  seller_address : String
  royalty_payee : String
  royalty_numerator : Int
  royalty_denominator : Int
deriving DecidableEq, Repr

structure TopazBidEventType where
  timestamp : Int
  bid_id : Int
  token_id : TokenIdType
  deadline : Int
  price : Int
  coin_type : TypeInfo
  amount : Int
  buyer : String
deriving DecidableEq, Repr

structure TopazBuyEventType where
  timestamp : Int
  listing_id : Int
  token_id : TokenIdType
  price : Int
  amount : Int
  seller : String
  buyer : String
deriving DecidableEq, Repr

structure TopazCancelBidEventType where
  timestamp : Int
  bid_id : Int
  token_id : TokenIdType
  deadline : Int
  price : Int
  coin_type : TypeInfo
  amount : Int
  buyer : String
deriving DecidableEq, Repr

structure TopazCancelCollectionBidEventType where
  timestamp : Int
  bid_id : Int
  creator : String
  collection_name : String
  buyer : String
  price : Int
  coin_type : TypeInfo
  amount : Int
  deadline : Int
deriving DecidableEq, Repr

structure TopazClaimEventType where
  timestamp : Int
  token_id : TokenIdType
  receiver : String
deriving DecidableEq, Repr

structure TopazCollectionBidEventType where
  timestamp : Int
  bid_id : Int
  creator : String
  collection_name : String
  buyer : String
  price : Int
  coin_type : TypeInfo
  amount : Int
  deadline : Int
deriving DecidableEq, Repr

structure TopazDelistEventType where
  timestamp : Int
  listing_id : Int
  token_id : TokenIdType
  price : Int
  amount : Int
  seller : String
deriving DecidableEq, Repr

structure TopazListEventType where
  timestamp : Int
  listing_id : Int
  token_id : TokenIdType
  price : Int
  amount : Int
  seller : String
deriving DecidableEq, Repr

structure TopazSellEventType where
  timestamp : Int
  bid_id : Int
  token_id : TokenIdType
  deadline : Int
  price : Int
  coin_type : TypeInfo
  amount : Int
  buyer : String
  seller : String
deriving DecidableEq, Repr

structure TopazSendEventType where
  timestamp : Int
  token_id : TokenIdType
  amount : Int
  sender : String
  receiver : String
deriving DecidableEq, Repr

structure Souffl3MarketIdType where
  market_address : String
  name : String
deriving DecidableEq, Repr

structure Souffl3BuyTokenEventType where
  id : Souffl3MarketIdType
  token_id : TokenIdType
  token_amount : Int
  buyer : String
  token_owner : String
  coin_per_token : Int
deriving DecidableEq, Repr

structure Souffl3CancelListTokenEventType where
  id : Souffl3MarketIdType
  token_id : TokenIdType
  token_amount : Int
deriving DecidableEq, Repr

structure Souffl3ListTokenEventType where
  id : Souffl3MarketIdType
  token_id : TokenIdType
  token_owner : String
  token_amount : Int
  coin_per_token : Int
deriving DecidableEq, Repr

/-- The `TokenEvent` enum of `token_utils.rs`, with the 29 variants it
declares.  (The builder files `token_activities.rs` and
`collection_volume.rs` additionally contain match arms for two variants,
`Souffl3TokenListEvent` and `Souffl3TokenSwapEvent`, that are absent from
the enum declaration and that `TokenEvent::from_event` can never construct;
those unreachable arms are omitted from the embedding.) -/
inductive TokenEvent where
  | MintTokenEvent (inner : MintTokenEventType)
  | BurnTokenEvent (inner : BurnTokenEventType)
  | MutateTokenPropertyMapEvent (inner : MutateTokenPropertyMapEventType)
  | WithdrawTokenEvent (inner : WithdrawTokenEventType)
  | DepositTokenEvent (inner : DepositTokenEventType)
  | OfferTokenEvent (inner : OfferTokenEventType)
  | CancelTokenOfferEvent (inner : CancelTokenOfferEventType)
  | ClaimTokenEvent (inner : ClaimTokenEventType)
  | BlueMoveAuctionEvent (inner : BlueMoveAuctionEventType)
  | BlueBidEvent (inner : BlueBidEventType)
  | BlueBuyEvent (inner : BlueBuyEventType)
  | BlueChangePriceEvent (inner : BlueChangePriceEventType)
  | BlueClaimCoinsEvent (inner : BlueClaimCoinsEventType)
  | BlueClaimTokenEvent (inner : BlueClaimTokenEventType)
  | BlueDelistEvent (inner : BlueDelistEventType)
  | BlueListEvent (inner : BlueListEventType)
  | TopazBidEvent (inner : TopazBidEventType)
  | TopazBuyEvent (inner : TopazBuyEventType)
  | TopazCancelBidEvent (inner : TopazCancelBidEventType)
  | TopazCancelCollectionBidEvent (inner : TopazCancelCollectionBidEventType)
  | TopazClaimEvent (inner : TopazClaimEventType)
  | TopazCollectionBidEvent (inner : TopazCollectionBidEventType)
  | TopazDelistEvent (inner : TopazDelistEventType)
  | TopazListEvent (inner : TopazListEventType)
  | TopazSellEvent (inner : TopazSellEventType)
  | TopazSendEvent (inner : TopazSendEventType)
  | Souffl3BuyTokenEvent (inner : Souffl3BuyTokenEventType)
  | Souffl3CancelListTokenEvent (inner : Souffl3CancelListTokenEventType)
  | Souffl3ListTokenEvent (inner : Souffl3ListTokenEventType)
deriving DecidableEq, Repr

/-! ## Event payloads and the decoder (`TokenEvent::from_event`)

The JSON payload of an on-chain event is embedded abstractly: a payload
value is tagged by the deserialisation schema it conforms to (one
constructor per `serde` target struct), and `malformed` stands for any JSON
value that conforms to none of them — a required field missing or
wrong-typed.  `serde_json::from_value::<T>` then succeeds exactly on the
payloads tagged with `T`'s schema. -/
inductive EventPayload where
  | mintPayload (inner : MintTokenEventType)
  | burnPayload (inner : BurnTokenEventType)
  | mutatePayload (inner : MutateTokenPropertyMapEventType)
  | withdrawPayload (inner : WithdrawTokenEventType)
  | depositPayload (inner : DepositTokenEventType)
  | offerPayload (inner : OfferTokenEventType)
  | cancelOfferPayload (inner : CancelTokenOfferEventType)
  | claimPayload (inner : ClaimTokenEventType)
  | blueAuctionPayload (inner : BlueMoveAuctionEventType)
  | blueBidPayload (inner : BlueBidEventType)
  | blueBuyPayload (inner : BlueBuyEventType)
  | blueChangePricePayload (inner : BlueChangePriceEventType)
  | blueClaimCoinsPayload (inner : BlueClaimCoinsEventType)
  | blueClaimTokenPayload (inner : BlueClaimTokenEventType)
  | blueDelistPayload (inner : BlueDelistEventType)
  | blueListPayload (inner : BlueListEventType)
  | topazBidPayload (inner : TopazBidEventType)
  | topazBuyPayload (inner : TopazBuyEventType)
  | topazCancelBidPayload (inner : TopazCancelBidEventType)
  | topazCancelCollectionBidPayload (inner : TopazCancelCollectionBidEventType)
  | topazClaimPayload (inner : TopazClaimEventType)
  | topazCollectionBidPayload (inner : TopazCollectionBidEventType)
  | topazDelistPayload (inner : TopazDelistEventType)
  | topazListPayload (inner : TopazListEventType)
  | topazSellPayload (inner : TopazSellEventType)
  | topazSendPayload (inner : TopazSendEventType)
  | souffl3BuyPayload (inner : Souffl3BuyTokenEventType)
  | souffl3CancelListPayload (inner : Souffl3CancelListTokenEventType)
  | souffl3ListPayload (inner : Souffl3ListTokenEventType)
  | malformed
deriving DecidableEq, Repr

/-- The error context attached by `TokenEvent::from_event` to a decode
failure: `"version {} failed! failed to parse type {}, ..."`. -/
structure DecodeError where
  txn_version : Int
  type_tag : String
deriving DecidableEq, Repr

/-- `TokenEvent::from_event` — the dispatch table from fully qualified
on-chain type tags to decoded variants.  An unmatched tag is `Ok(None)`
("unrecognized", not an error); a matched tag whose payload does not
conform to the schema is a decode error carrying the version and tag.
(The source lists the key `0x3::token_transfers::TokenClaimEvent` twice;
the second, unreachable arm is omitted.) -/
def TokenEvent.from_event (data_type : String) (data : EventPayload)
    (txn_version : Int) : Except DecodeError (Option TokenEvent) :=
  if data_type = "0x3::token::MintTokenEvent" then
    match data with
    | .mintPayload inner => .ok (some (.MintTokenEvent inner))
    | _ => .error ⟨txn_version, data_type⟩
  else if data_type = "0x3::token::BurnTokenEvent" then
    match data with
    | .burnPayload inner => .ok (some (.BurnTokenEvent inner))
    | _ => .error ⟨txn_version, data_type⟩
  else if data_type = "0x3::token::MutateTokenPropertyMapEvent" then
    match data with
    | .mutatePayload inner => .ok (some (.MutateTokenPropertyMapEvent inner))
    | _ => .error ⟨txn_version, data_type⟩
  else if data_type = "0x3::token::WithdrawEvent" then
    match data with
    | .withdrawPayload inner => .ok (some (.WithdrawTokenEvent inner))
    | _ => .error ⟨txn_version, data_type⟩
  else if data_type = "0x3::token::DepositEvent" then
    match data with
    | .depositPayload inner => .ok (some (.DepositTokenEvent inner))
    | _ => .error ⟨txn_version, data_type⟩
  else if data_type = "0x3::token_transfers::TokenOfferEvent" then
    match data with
    | .offerPayload inner => .ok (some (.OfferTokenEvent inner))
    | _ => .error ⟨txn_version, data_type⟩
  else if data_type = "0x3::token_transfers::TokenCancelOfferEvent" then
    match data with
    | .cancelOfferPayload inner => .ok (some (.CancelTokenOfferEvent inner))
    | _ => .error ⟨txn_version, data_type⟩
  else if data_type = "0x3::token_transfers::TokenClaimEvent" then
    match data with
    | .claimPayload inner => .ok (some (.ClaimTokenEvent inner))
    | _ => .error ⟨txn_version, data_type⟩
  else if data_type = "0xd1fd99c1944b84d1670a2536417e997864ad12303d19eac725891691b04d614e::marketplaceV2::AuctionEvent" then
    match data with
    | .blueAuctionPayload inner => .ok (some (.BlueMoveAuctionEvent inner))
    | _ => .error ⟨txn_version, data_type⟩
  else if data_type = "0xd1fd99c1944b84d1670a2536417e997864ad12303d19eac725891691b04d614e::marketplaceV2::BidEvent" then
    match data with
    | .blueBidPayload inner => .ok (some (.BlueBidEvent inner))
    | _ => .error ⟨txn_version, data_type⟩
  else if data_type = "0xd1fd99c1944b84d1670a2536417e997864ad12303d19eac725891691b04d614e::marketplaceV2::BuyEvent" then
    match data with
    | .blueBuyPayload inner => .ok (some (.BlueBuyEvent inner))
    | _ => .error ⟨txn_version, data_type⟩
  else if data_type = "0xd1fd99c1944b84d1670a2536417e997864ad12303d19eac725891691b04d614e::marketplaceV2::ChangePriceEvent" then
    match data with
    | .blueChangePricePayload inner => .ok (some (.BlueChangePriceEvent inner))
    | _ => .error ⟨txn_version, data_type⟩
  else if data_type = "0xd1fd99c1944b84d1670a2536417e997864ad12303d19eac725891691b04d614e::marketplaceV2::ClaimCoinsEvent" then
    match data with
    | .blueClaimCoinsPayload inner => .ok (some (.BlueClaimCoinsEvent inner))
    | _ => .error ⟨txn_version, data_type⟩
  else if data_type = "0xd1fd99c1944b84d1670a2536417e997864ad12303d19eac725891691b04d614e::marketplaceV2::ClaimTokenEvent" then
    match data with
    | .blueClaimTokenPayload inner => .ok (some (.BlueClaimTokenEvent inner))
    | _ => .error ⟨txn_version, data_type⟩
  else if data_type = "0xd1fd99c1944b84d1670a2536417e997864ad12303d19eac725891691b04d614e::marketplaceV2::DelistEvent" then
    match data with
    | .blueDelistPayload inner => .ok (some (.BlueDelistEvent inner))
    | _ => .error ⟨txn_version, data_type⟩
  else if data_type = "0xd1fd99c1944b84d1670a2536417e997864ad12303d19eac725891691b04d614e::marketplaceV2::ListEvent" then
    match data with
    | .blueListPayload inner => .ok (some (.BlueListEvent inner))
    | _ => .error ⟨txn_version, data_type⟩
  else if data_type = "0x2c7bccf7b31baf770fdbcc768d9e9cb3d87805e255355df5db32ac9a669010a2::events::BidEvent" then
    match data with
    | .topazBidPayload inner => .ok (some (.TopazBidEvent inner))
    | _ => .error ⟨txn_version, data_type⟩
  else if data_type = "0x2c7bccf7b31baf770fdbcc768d9e9cb3d87805e255355df5db32ac9a669010a2::events::BuyEvent" then
    match data with
    | .topazBuyPayload inner => .ok (some (.TopazBuyEvent inner))
    | _ => .error ⟨txn_version, data_type⟩
  else if data_type = "0x2c7bccf7b31baf770fdbcc768d9e9cb3d87805e255355df5db32ac9a669010a2::events::CancelBidEvent" then
    match data with
    | .topazCancelBidPayload inner => .ok (some (.TopazCancelBidEvent inner))
    | _ => .error ⟨txn_version, data_type⟩
  else if data_type = "0x2c7bccf7b31baf770fdbcc768d9e9cb3d87805e255355df5db32ac9a669010a2::events::CancelCollectionBidEvent" then
    match data with
    | .topazCancelCollectionBidPayload inner => .ok (some (.TopazCancelCollectionBidEvent inner))
    | _ => .error ⟨txn_version, data_type⟩
  else if data_type = "0x2c7bccf7b31baf770fdbcc768d9e9cb3d87805e255355df5db32ac9a669010a2::events::ClaimEvent" then
    match data with
    | .topazClaimPayload inner => .ok (some (.TopazClaimEvent inner))
    | _ => .error ⟨txn_version, data_type⟩
  else if data_type = "0x2c7bccf7b31baf770fdbcc768d9e9cb3d87805e255355df5db32ac9a669010a2::events::CollectionBidEvent" then
    match data with
    | .topazCollectionBidPayload inner => .ok (some (.TopazCollectionBidEvent inner))
    | _ => .error ⟨txn_version, data_type⟩
  else if data_type = "0x2c7bccf7b31baf770fdbcc768d9e9cb3d87805e255355df5db32ac9a669010a2::events::DelistEvent" then
    match data with
    | .topazDelistPayload inner => .ok (some (.TopazDelistEvent inner))
    | _ => .error ⟨txn_version, data_type⟩
  else if data_type = "0x2c7bccf7b31baf770fdbcc768d9e9cb3d87805e255355df5db32ac9a669010a2::events::ListEvent" then
    match data with
    | .topazListPayload inner => .ok (some (.TopazListEvent inner))
    | _ => .error ⟨txn_version, data_type⟩
  else if data_type = "0x2c7bccf7b31baf770fdbcc768d9e9cb3d87805e255355df5db32ac9a669010a2::events::SellEvent" then
    match data with
    | .topazSellPayload inner => .ok (some (.TopazSellEvent inner))
    | _ => .error ⟨txn_version, data_type⟩
  else if data_type = "0x2c7bccf7b31baf770fdbcc768d9e9cb3d87805e255355df5db32ac9a669010a2::events::SendEvent" then
    match data with
    | .topazSendPayload inner => .ok (some (.TopazSendEvent inner))
    | _ => .error ⟨txn_version, data_type⟩
  else if data_type = "0xf6994988bd40261af9431cd6dd3fcf765569719e66322c7a05cc78a89cd366d4::FixedPriceMarket::BuyTokenEvent" then
    match data with
    | .souffl3BuyPayload inner => .ok (some (.Souffl3BuyTokenEvent inner))
    | _ => .error ⟨txn_version, data_type⟩
  else if data_type = "0xf6994988bd40261af9431cd6dd3fcf765569719e66322c7a05cc78a89cd366d4::FixedPriceMarket::CancelListTokenEvent" then
    match data with
    | .souffl3CancelListPayload inner => .ok (some (.Souffl3CancelListTokenEvent inner))
    | _ => .error ⟨txn_version, data_type⟩
  else if data_type = "0xf6994988bd40261af9431cd6dd3fcf765569719e66322c7a05cc78a89cd366d4::FixedPriceMarket::ListTokenEvent" then
    match data with
    | .souffl3ListPayload inner => .ok (some (.Souffl3ListTokenEvent inner))
    | _ => .error ⟨txn_version, data_type⟩
  else
    .ok none

/-- The 29 type tags of the `TokenEvent::from_event` dispatch table — the
"recognized" events. -/
def recognizedTags : List String :=
  [ "0x3::token::MintTokenEvent",
    "0x3::token::BurnTokenEvent",
    "0x3::token::MutateTokenPropertyMapEvent",
    "0x3::token::WithdrawEvent",
    "0x3::token::DepositEvent",
    "0x3::token_transfers::TokenOfferEvent",
    "0x3::token_transfers::TokenCancelOfferEvent",
    "0x3::token_transfers::TokenClaimEvent",
    "0xd1fd99c1944b84d1670a2536417e997864ad12303d19eac725891691b04d614e::marketplaceV2::AuctionEvent",
    "0xd1fd99c1944b84d1670a2536417e997864ad12303d19eac725891691b04d614e::marketplaceV2::BidEvent",
    "0xd1fd99c1944b84d1670a2536417e997864ad12303d19eac725891691b04d614e::marketplaceV2::BuyEvent",
    "0xd1fd99c1944b84d1670a2536417e997864ad12303d19eac725891691b04d614e::marketplaceV2::ChangePriceEvent",
    "0xd1fd99c1944b84d1670a2536417e997864ad12303d19eac725891691b04d614e::marketplaceV2::ClaimCoinsEvent",
    "0xd1fd99c1944b84d1670a2536417e997864ad12303d19eac725891691b04d614e::marketplaceV2::ClaimTokenEvent",
    "0xd1fd99c1944b84d1670a2536417e997864ad12303d19eac725891691b04d614e::marketplaceV2::DelistEvent",
    "0xd1fd99c1944b84d1670a2536417e997864ad12303d19eac725891691b04d614e::marketplaceV2::ListEvent",
    "0x2c7bccf7b31baf770fdbcc768d9e9cb3d87805e255355df5db32ac9a669010a2::events::BidEvent",
    "0x2c7bccf7b31baf770fdbcc768d9e9cb3d87805e255355df5db32ac9a669010a2::events::BuyEvent",
    "0x2c7bccf7b31baf770fdbcc768d9e9cb3d87805e255355df5db32ac9a669010a2::events::CancelBidEvent",
    "0x2c7bccf7b31baf770fdbcc768d9e9cb3d87805e255355df5db32ac9a669010a2::events::CancelCollectionBidEvent",
    "0x2c7bccf7b31baf770fdbcc768d9e9cb3d87805e255355df5db32ac9a669010a2::events::ClaimEvent",
    "0x2c7bccf7b31baf770fdbcc768d9e9cb3d87805e255355df5db32ac9a669010a2::events::CollectionBidEvent",
    "0x2c7bccf7b31baf770fdbcc768d9e9cb3d87805e255355df5db32ac9a669010a2::events::DelistEvent",
    "0x2c7bccf7b31baf770fdbcc768d9e9cb3d87805e255355df5db32ac9a669010a2::events::ListEvent",
    "0x2c7bccf7b31baf770fdbcc768d9e9cb3d87805e255355df5db32ac9a669010a2::events::SellEvent",
    "0x2c7bccf7b31baf770fdbcc768d9e9cb3d87805e255355df5db32ac9a669010a2::events::SendEvent",
    "0xf6994988bd40261af9431cd6dd3fcf765569719e66322c7a05cc78a89cd366d4::FixedPriceMarket::BuyTokenEvent",
    "0xf6994988bd40261af9431cd6dd3fcf765569719e66322c7a05cc78a89cd366d4::FixedPriceMarket::CancelListTokenEvent",
    "0xf6994988bd40261af9431cd6dd3fcf765569719e66322c7a05cc78a89cd366d4::FixedPriceMarket::ListTokenEvent" ]

/-! ## Transactions and events (`aptos_api_types`, interface only) -/

/-- The fields of an API event the token models read: the emitting guid
(account address + creation number), the sequence number, the type tag and
the JSON payload. -/
structure APIEvent where
  guid_account_address : String
  guid_creation_number : Int
  sequence_number : Int
  typ : String
  data : EventPayload
deriving DecidableEq, Repr

/-- A user transaction: version, timestamp and its events. -/
structure UserTransaction where
  version : Int
  timestamp : Int
  events : List APIEvent
deriving DecidableEq, Repr

/-- An API transaction; the token models only inspect user transactions. -/
inductive APITransaction where
  | UserTransaction (user_txn : UserTransaction)
  | otherTransaction
deriving DecidableEq, Repr

/-! ## The entity resolver

The three builder files each contain a private `TokenActivityHelper` struct
and a per-variant match producing it; the three copies are textually
identical (over the variants reachable from `from_event`), so the embedding
defines the struct and the match once and uses them for all three builders.
The source's two-step `binding` indirection for the collection-bid variants
is inlined: for those two variants the helper's `token_data_id` is the
synthesized identity `{creator, collection_name, "COLLECTION"}`. -/

/-- `TokenActivityHelper` — the uniform resolved attribute bundle. -/
structure TokenActivityHelper where
  token_data_id : TokenDataIdType
  property_version : Int
  from_address : Option String
  to_address : Option String
  token_amount : Int
  coin_type : Option String
  coin_amount : Option Int
deriving DecidableEq, Repr

/-- The per-variant `token_activity_helper` match, shared verbatim by
`token_activities.rs`, `marketplace_listings.rs` and
`collection_volume.rs`; `event_account_address` is the emitting guid's
account address. -/
def tokenActivityHelperOf (event_account_address : String) :
    TokenEvent → TokenActivityHelper
  | .MintTokenEvent inner =>
    ⟨inner.id, 0, some event_account_address, none, inner.amount, none, none⟩
  | .BurnTokenEvent inner =>
    ⟨inner.id.token_data_id, inner.id.property_version,
      some event_account_address, none, inner.amount, none, none⟩
  | .MutateTokenPropertyMapEvent inner =>
    ⟨inner.new_id.token_data_id, inner.new_id.property_version,
      some event_account_address, none, 0, none, none⟩
  | .WithdrawTokenEvent inner =>
    ⟨inner.id.token_data_id, inner.id.property_version,
      some event_account_address, none, inner.amount, none, none⟩
  | .DepositTokenEvent inner =>
    ⟨inner.id.token_data_id, inner.id.property_version,
      none, some event_account_address, inner.amount, none, none⟩
  | .OfferTokenEvent inner =>
    ⟨inner.token_id.token_data_id, inner.token_id.property_version,
      some event_account_address, some inner.to_address, inner.amount, none, none⟩
  | .CancelTokenOfferEvent inner =>
    ⟨inner.token_id.token_data_id, inner.token_id.property_version,
      some event_account_address, some inner.to_address, inner.amount, none, none⟩
  | .ClaimTokenEvent inner =>
    ⟨inner.token_id.token_data_id, inner.token_id.property_version,
      some event_account_address, some inner.to_address, inner.amount, none, none⟩
  | .BlueMoveAuctionEvent inner =>
    ⟨inner.id.token_data_id, inner.id.property_version,
      some inner.owner_address, none, 0, none, some inner.min_selling_price⟩
  | .BlueBidEvent inner =>
    ⟨inner.id.token_data_id, inner.id.property_version,
      some inner.bider_address, none, 0, none, some inner.bid⟩
  | .BlueBuyEvent inner =>
    ⟨inner.id.token_data_id, inner.id.property_version,
      none, some inner.buyer_address, 0, none, none⟩
  | .BlueChangePriceEvent inner =>
    ⟨inner.id.token_data_id, inner.id.property_version,
      some inner.seller_address, none, 0, none, some inner.amount⟩
  | .BlueClaimCoinsEvent inner =>
    ⟨inner.id.token_data_id, inner.id.property_version,
      some inner.owner_token, none, 0, none, none⟩
  | .BlueClaimTokenEvent inner =>
    ⟨inner.id.token_data_id, inner.id.property_version,
      none, some inner.bider_address, 0, none, none⟩
  | .BlueDelistEvent inner =>
    ⟨inner.id.token_data_id, inner.id.property_version,
      some inner.seller_address, none, 0, none, none⟩
  | .BlueListEvent inner =>
    ⟨inner.id.token_data_id, inner.id.property_version,
      some inner.seller_address, none, inner.amount, none, none⟩
  | .TopazBidEvent inner =>
    ⟨inner.token_id.token_data_id, inner.token_id.property_version,
      some inner.buyer, none, inner.amount,
      some inner.coin_type.to_string, some inner.price⟩
  | .TopazBuyEvent inner =>
    ⟨inner.token_id.token_data_id, inner.token_id.property_version,
      some inner.seller, some inner.buyer, inner.amount, none, some inner.price⟩
  | .TopazCancelBidEvent inner =>
    ⟨inner.token_id.token_data_id, inner.token_id.property_version,
      some inner.buyer, none, inner.amount,
      some inner.coin_type.to_string, some inner.price⟩
  | .TopazCancelCollectionBidEvent inner =>
    ⟨⟨inner.creator, inner.collection_name, "COLLECTION"⟩, 0,
      some inner.buyer, none, inner.amount,
      some inner.coin_type.to_string, some inner.price⟩
  | .TopazClaimEvent inner =>
    ⟨inner.token_id.token_data_id, inner.token_id.property_version,
      none, some inner.receiver, 0, none, none⟩
  | .TopazCollectionBidEvent inner =>
    ⟨⟨inner.creator, inner.collection_name, "COLLECTION"⟩, 0,
      some inner.buyer, none, inner.amount,
      some inner.coin_type.to_string, some inner.price⟩
  | .TopazDelistEvent inner =>
    ⟨inner.token_id.token_data_id, inner.token_id.property_version,
      some inner.seller, none, inner.amount, none, some inner.price⟩
  | .TopazListEvent inner =>
    ⟨inner.token_id.token_data_id, inner.token_id.property_version,
      some inner.seller, none, inner.amount, none, some inner.price⟩
  | .TopazSellEvent inner =>
    ⟨inner.token_id.token_data_id, inner.token_id.property_version,
      some inner.seller, some inner.buyer, inner.amount,
      some inner.coin_type.to_string, some inner.price⟩
  | .TopazSendEvent inner =>
    ⟨inner.token_id.token_data_id, inner.token_id.property_version,
      some inner.sender, some inner.receiver, inner.amount, none, none⟩
  | .Souffl3BuyTokenEvent inner =>
    ⟨inner.token_id.token_data_id, inner.token_id.property_version,
      some inner.token_owner, some inner.buyer, inner.token_amount,
      none, some inner.coin_per_token⟩
  | .Souffl3CancelListTokenEvent inner =>
    ⟨inner.token_id.token_data_id, inner.token_id.property_version,
      none, none, inner.token_amount, none, none⟩
  | .Souffl3ListTokenEvent inner =>
    ⟨inner.token_id.token_data_id, inner.token_id.property_version,
      some inner.token_owner, none, inner.token_amount,
      none, some inner.coin_per_token⟩

/-- The `token_data_id` match shared by `marketplace_listings.rs` and
`collection_volume.rs`: the token identity read directly off the event
variant, with the empty identity for every variant not listed (in
particular the collection-bid variants fall through to the default). -/
def tokenDataIdOfEvent : TokenEvent → TokenDataIdType
  | .BlueMoveAuctionEvent inner => inner.id.token_data_id
  | .BlueBidEvent inner => inner.id.token_data_id
  | .BlueBuyEvent inner => inner.id.token_data_id
  | .BlueChangePriceEvent inner => inner.id.token_data_id
  | .BlueClaimCoinsEvent inner => inner.id.token_data_id
  | .BlueClaimTokenEvent inner => inner.id.token_data_id
  | .BlueDelistEvent inner => inner.id.token_data_id
  | .BlueListEvent inner => inner.id.token_data_id
  | .TopazBidEvent inner => inner.token_id.token_data_id
  | .TopazBuyEvent inner => inner.token_id.token_data_id
  | .TopazCancelBidEvent inner => inner.token_id.token_data_id
  | .TopazClaimEvent inner => inner.token_id.token_data_id
  | .TopazDelistEvent inner => inner.token_id.token_data_id
  | .TopazListEvent inner => inner.token_id.token_data_id
  | .TopazSellEvent inner => inner.token_id.token_data_id
  | .TopazSendEvent inner => inner.token_id.token_data_id
  | .Souffl3BuyTokenEvent inner => inner.token_id.token_data_id
  | .Souffl3CancelListTokenEvent inner => inner.token_id.token_data_id
  | .Souffl3ListTokenEvent inner => inner.token_id.token_data_id
  | _ => ⟨"", "", ""⟩

/-! ## Association-list embedding of the Rust `HashMap` accumulators -/

/-- Overwriting insert into an association list: the embedding of
`HashMap::insert` for the per-batch deduplication maps. -/
def amInsert {α : Type} (m : List (String × α)) (k : String) (v : α) :
    List (String × α) :=
  if m.any (fun p => p.1 = k) then
    m.map (fun p => if p.1 = k then (k, v) else p)
  else
    m ++ [(k, v)]

/-- Key lookup in an association-list map. -/
def amLookup {α : Type} (m : List (String × α)) (k : String) : Option α :=
  (m.find? (fun p => p.1 = k)).map Prod.snd

/-- `HashMap::extend`: insert every pair of the second map into the first. -/
def amExtend {α : Type} (m : List (String × α)) (m2 : List (String × α)) :
    List (String × α) :=
  m2.foldl (fun acc p => amInsert acc p.1 p.2) m

/-! ## Activity log builder (`token_activities.rs`) -/

/-- A `token_activities` row. -/
structure TokenActivity where
  transaction_version : Int
  event_account_address : String
  event_creation_number : Int
  event_sequence_number : Int
  token_data_id_hash : String
  property_version : Int
  creator_address : String
  collection_name : String
  name : String
  transfer_type : String
  from_address : Option String
  to_address : Option String
  token_amount : Int
  coin_type : Option String
  coin_amount : Option Int
  collection_data_id_hash : String
  transaction_timestamp : Int
deriving DecidableEq, Repr

/-- `TokenActivity::from_parsed_event` — one row per resolved event,
with every token-identity field derived from the helper's `token_data_id`
(the synthesized identity for the collection-bid variants). -/
def TokenActivity.from_parsed_event (event_type : String) (event : APIEvent)
    (token_event : TokenEvent) (txn_version : Int) (txn_timestamp : Int) :
    TokenActivity :=
  let event_account_address := event.guid_account_address
  let token_activity_helper := tokenActivityHelperOf event_account_address token_event
  let token_data_id := token_activity_helper.token_data_id
  { transaction_version := txn_version
    event_account_address := event_account_address
    event_creation_number := event.guid_creation_number
    event_sequence_number := event.sequence_number
    token_data_id_hash := token_data_id.to_hash
    property_version := token_activity_helper.property_version
    creator_address := token_data_id.get_creator_address
    collection_name := token_data_id.get_collection_trunc
    name := token_data_id.get_name_trunc
    transfer_type := event_type
    from_address := token_activity_helper.from_address
    to_address := token_activity_helper.to_address
    token_amount := token_activity_helper.token_amount
    coin_type := token_activity_helper.coin_type
    coin_amount := token_activity_helper.coin_amount
    collection_data_id_hash := token_data_id.get_collection_data_id_hash
    transaction_timestamp := txn_timestamp }

/-- `TokenActivity::from_transaction`.  The source calls
`TokenEvent::from_event(..).unwrap()` on every event: a decode failure
panics, aborting the whole batch; the panic is embedded as `Except.error`,
so a single malformed recognized payload discards all rows. -/
def TokenActivity.from_transaction (transaction : APITransaction) :
    Except DecodeError (List TokenActivity) :=
  match transaction with
  | .UserTransaction user_txn => do
    let step := fun (acc : List TokenActivity) (event : APIEvent) => do
      let txn_version := user_txn.version
      let event_type := event.typ
      let decoded ← TokenEvent.from_event event_type event.data txn_version
      match decoded with
      | some token_event =>
        pure (acc ++ [TokenActivity.from_parsed_event event_type event token_event
          txn_version (parse_timestamp user_txn.timestamp txn_version)])
      | none => pure acc
    user_txn.events.foldlM step []
  | .otherTransaction => .ok []

/-! ## Current listing builder (`marketplace_listings.rs`) -/

/-- A `current_marketplace_listings` row.  Exactly the fields of the source
struct: it declares `(market_address, token_data_id_hash)` as its diesel
primary key and carries **no** `last_transaction_version` field, although
the insert statement's conflict guard references that database column. -/
structure CurrentMarketplaceListing where
  collection_data_id_hash : String
  market_address : String
  token_data_id_hash : String
  property_version : Int
  creator_address : String
  collection_name : String
  name : String
  seller : String
  amount : Int
  price : Int
  event_type : String
  inserted_at : Int
deriving DecidableEq, Repr

/-- The inclusion filter of `CurrentMarketplaceListing::from_parsed_event`:
the type tag contains one of the listing-related keywords. -/
def listingCond (event_type : String) : Bool :=
  strContains event_type "List"
    || strContains event_type "Delist"
    || strContains event_type "Buy"
    || strContains event_type "Sell"
    || strContains event_type "Change"
    || strContains event_type "CancelList"
    || strContains event_type "Fill"
    || strContains event_type "Send"
    || strContains event_type "Auction"

/-- The row built by `CurrentMarketplaceListing::from_parsed_event` when
the inclusion filter passes.  `market_address` starts as the tag's
module-address prefix and is reset to `""` unless the tag denotes an
opening action (`List`/`Auction`) that is not a cancellation
(`CancelList`/`Delist`). -/
def listingRowOf (event_type : String) (event : APIEvent)
    (token_event : TokenEvent) (_txn_version : Int) (txn_timestamp : Int) :
    CurrentMarketplaceListing :=
  let event_account_address := event.guid_account_address
  let token_data_id := tokenDataIdOfEvent token_event
  let token_activity_helper := tokenActivityHelperOf event_account_address token_event
  let market_address :=
    if !(strContains event_type "List" || strContains event_type "Auction")
        || strContains event_type "CancelList"
        || strContains event_type "Delist" then
      ""
    else
      firstSegment event_type
  { collection_data_id_hash := token_data_id.get_collection_data_id_hash
    market_address := market_address
    token_data_id_hash := token_data_id.to_hash
    property_version := token_activity_helper.property_version
    creator_address := token_data_id.creator
    collection_name := token_data_id.collection
    name := token_data_id.name
    seller := (token_activity_helper.from_address).getD ""
    amount := token_activity_helper.token_amount
    price := (token_activity_helper.coin_amount).getD 0
    event_type := event_type
    inserted_at := txn_timestamp }

/-- `CurrentMarketplaceListing::from_parsed_event`. -/
def CurrentMarketplaceListing.from_parsed_event (event_type : String)
    (event : APIEvent) (token_event : TokenEvent) (txn_version : Int)
    (txn_timestamp : Int) : Option CurrentMarketplaceListing :=
  if listingCond event_type then
    some (listingRowOf event_type event token_event txn_version txn_timestamp)
  else
    none

/-- The loop body of `CurrentMarketplaceListing::from_transaction`: decode
(`unwrap` embedded as `Except.error`), build the row when the filter
passes, and `HashMap::insert` it keyed by its `token_data_id_hash`. -/
def listingLoopStep (txn_version txn_timestamp : Int)
    (acc : List (String × CurrentMarketplaceListing)) (event : APIEvent) :
    Except DecodeError (List (String × CurrentMarketplaceListing)) := do
  let decoded ← TokenEvent.from_event event.typ event.data txn_version
  match decoded with
  | some token_event =>
    match CurrentMarketplaceListing.from_parsed_event event.typ event
        token_event txn_version (parse_timestamp txn_timestamp txn_version) with
    | some row => pure (amInsert acc row.token_data_id_hash row)
    | none => pure acc
  | none => pure acc

/-- `CurrentMarketplaceListing::from_transaction` — the per-transaction
`HashMap<String, Self>` keyed by `token_data_id_hash`. -/
def CurrentMarketplaceListing.from_transaction (transaction : APITransaction) :
    Except DecodeError (List (String × CurrentMarketplaceListing)) :=
  match transaction with
  | .UserTransaction user_txn =>
    user_txn.events.foldlM
      (listingLoopStep user_txn.version user_txn.timestamp) []
  | .otherTransaction => .ok []

/-! ## Volume builder (`collection_volume.rs`) -/

/-- A `current_collection_volumes` row. -/
structure CurrentCollectionVolume where
  collection_data_id_hash : String
  volume : Int
  inserted_at : Int
  last_transaction_version : Int
deriving DecidableEq, Repr

/-- A `collection_volumes` (append-only) row. -/
structure CollectionVolume where
  collection_data_id_hash : String
  volume : Int
  inserted_at : Int
  last_transaction_version : Int
deriving DecidableEq, Repr

/-- A `current_token_volumes` row. -/
structure CurrentTokenVolume where
  token_data_id_hash : String
  volume : Int
  inserted_at : Int
  last_transaction_version : Int
deriving DecidableEq, Repr

/-- A `token_volumes` (append-only) row. -/
structure TokenVolume where
  token_data_id_hash : String
  volume : Int
  inserted_at : Int
  last_transaction_version : Int
deriving DecidableEq, Repr

/-- The inclusion filter of `CurrentCollectionVolume::from_parse_event`:
the type tag contains `Buy`, `Sell` or `Swap`. -/
def volumeCond (event_type : String) : Bool :=
  strContains event_type "Buy"
    || strContains event_type "Sell"
    || strContains event_type "Swap"

/-- The four rows built by `CurrentCollectionVolume::from_parse_event` for
a qualifying trade event.  Note the source keys the two token-volume rows
by `token_data_id.to_string()` — the raw display string — while the two
collection-volume rows use the collection identity's hash. -/
def volumeRowsOf (event : APIEvent) (token_event : TokenEvent)
    (txn_version : Int) (txn_timestamp : Int) :
    CurrentCollectionVolume × CollectionVolume × CurrentTokenVolume × TokenVolume :=
  let event_account_address := event.guid_account_address
  let token_data_id := tokenDataIdOfEvent token_event
  let token_activity_helper := tokenActivityHelperOf event_account_address token_event
  let collection_data_id_hash := token_data_id.get_collection_data_id_hash
  let volume := (token_activity_helper.coin_amount).getD 0
  ( { collection_data_id_hash := collection_data_id_hash
      volume := volume
      inserted_at := txn_timestamp
      last_transaction_version := txn_version },
    { collection_data_id_hash := collection_data_id_hash
      volume := volume
      inserted_at := txn_timestamp
      last_transaction_version := txn_version },
    { token_data_id_hash := token_data_id.to_string
      volume := volume
      inserted_at := txn_timestamp
      last_transaction_version := txn_version },
    { token_data_id_hash := token_data_id.to_string
      volume := volume
      inserted_at := txn_timestamp
      last_transaction_version := txn_version } )

/-- `CurrentCollectionVolume::from_parse_event`. -/
def CurrentCollectionVolume.from_parse_event (event_type : String)
    (event : APIEvent) (token_event : TokenEvent) (txn_version : Int)
    (txn_timestamp : Int) :
    Option (CurrentCollectionVolume × CollectionVolume ×
      CurrentTokenVolume × TokenVolume) :=
  if volumeCond event_type then
    some (volumeRowsOf event token_event txn_version txn_timestamp)
  else
    none

/-- The accumulators of `CurrentCollectionVolume::from_transaction`: the
two current maps (keyed by their hash field) and the two append-only lists. -/
structure VolumeAccum where
  current_collection_volumes : List (String × CurrentCollectionVolume)
  collection_volumes : List CollectionVolume
  current_token_volumes : List (String × CurrentTokenVolume)
  token_volumes : List TokenVolume
deriving DecidableEq, Repr

/-- `CurrentCollectionVolume::from_transaction` — for every qualifying
event, `HashMap::insert` (overwrite) into the two current maps and `push`
onto the two append-only lists; the decoder's `unwrap` is embedded as
`Except.error`. -/
def CurrentCollectionVolume.from_transaction (transaction : APITransaction) :
    Except DecodeError VolumeAccum :=
  match transaction with
  | .UserTransaction user_txn => do
    let step := fun (acc : VolumeAccum) (event : APIEvent) => do
      let txn_version := user_txn.version
      let event_type := event.typ
      let decoded ← TokenEvent.from_event event_type event.data txn_version
      match decoded with
      | some token_event =>
        match CurrentCollectionVolume.from_parse_event event_type event
            token_event txn_version
            (parse_timestamp user_txn.timestamp txn_version) with
        | some (ccv, cv, ctv, tv) =>
          pure { current_collection_volumes :=
                   amInsert acc.current_collection_volumes
                     ccv.collection_data_id_hash ccv
                 collection_volumes := acc.collection_volumes ++ [cv]
                 current_token_volumes :=
                   amInsert acc.current_token_volumes ctv.token_data_id_hash ctv
                 token_volumes := acc.token_volumes ++ [tv] }
        | none => pure acc
      | none => pure acc
    user_txn.events.foldlM step ⟨[], [], [], []⟩
  | .otherTransaction => .ok ⟨[], [], [], []⟩

/-! ## Batch accumulation and sorting (`process_transactions`)

`process_transactions` loops over the batch's transactions, appending to
the append-only vectors and `extend`-ing the per-batch deduplication
`HashMap`s, then turns each map into a vector and sorts the current-state
vectors by their key before handing every row set to `insert_to_db`.
Only the tables covered by the analysed sources are modelled. -/

/-- The raw per-batch accumulators before the sort step: the map-based
current-state accumulators and the append-only vectors, exactly as built
by the loop of `process_transactions`. -/
structure AccumState where
  token_activities : List TokenActivity
  current_marketplace_listings : List (String × CurrentMarketplaceListing)
  current_collection_volumes : List (String × CurrentCollectionVolume)
  collection_volumes : List CollectionVolume
  current_token_volumes : List (String × CurrentTokenVolume)
  token_volumes : List TokenVolume
deriving DecidableEq, Repr

/-- The empty accumulator the batch loop starts from. -/
def AccumState.empty : AccumState := ⟨[], [], [], [], [], []⟩

/-- The body of the `for txn in transactions` loop of
`process_transactions`, restricted to the modelled tables. -/
def accumStep (acc : AccumState) (txn : APITransaction) :
    Except DecodeError AccumState := do
  let activities ← TokenActivity.from_transaction txn
  let current_marketplace_listings ← CurrentMarketplaceListing.from_transaction txn
  let vol ← CurrentCollectionVolume.from_transaction txn
  pure { token_activities := acc.token_activities ++ activities
         current_marketplace_listings :=
           amExtend acc.current_marketplace_listings current_marketplace_listings
         current_collection_volumes :=
           amExtend acc.current_collection_volumes vol.current_collection_volumes
         collection_volumes := acc.collection_volumes ++ vol.collection_volumes
         current_token_volumes :=
           amExtend acc.current_token_volumes vol.current_token_volumes
         token_volumes := acc.token_volumes ++ vol.token_volumes }

/-- The whole accumulation loop of `process_transactions`. -/
def batchAccum (transactions : List APITransaction) :
    Except DecodeError AccumState :=
  transactions.foldlM accumStep AccumState.empty

/-- The sort relation used for rows keyed by a single string column:
`sort_by(|a, b| key(a).cmp(&key(b)))`. -/
def keyLe {α : Type} (key : α → String) (a b : α) : Prop :=
  strLe (key a) (key b) = true

instance {α : Type} (key : α → String) : DecidableRel (keyLe key) := by
  intro a b
  unfold keyLe
  infer_instance

/-- The row sets handed to `insert_to_db` for the modelled tables:
`into_values` of each map followed by the `sort_by` calls for the
current-state vectors; the append-only vectors are handed over as
accumulated. -/
structure BatchRows where
  token_activities : List TokenActivity
  current_marketplace_listings : List CurrentMarketplaceListing
  current_collection_volumes : List CurrentCollectionVolume
  collection_volumes : List CollectionVolume
  current_token_volumes : List CurrentTokenVolume
  token_volumes : List TokenVolume
deriving DecidableEq, Repr

/-- The sort step of `process_transactions` (an insertion sort stands in
for the standard library sort; the maps' keys are unique, so any stable
comparison sort produces this list). -/
def sortedRows (acc : AccumState) : BatchRows :=
  { token_activities := acc.token_activities
    current_marketplace_listings :=
      List.insertionSort (keyLe (fun r => r.token_data_id_hash))
        (acc.current_marketplace_listings.map Prod.snd)
    current_collection_volumes :=
      List.insertionSort (keyLe (fun r => r.collection_data_id_hash))
        (acc.current_collection_volumes.map Prod.snd)
    collection_volumes := acc.collection_volumes
    current_token_volumes :=
      List.insertionSort (keyLe (fun r => r.token_data_id_hash))
        (acc.current_token_volumes.map Prod.snd)
    token_volumes := acc.token_volumes }

/-- Accumulation followed by the sort step: the row sets
`process_transactions` hands to the database writer. -/
def batchRowSets (transactions : List APITransaction) :
    Except DecodeError BatchRows :=
  (batchAccum transactions).map sortedRows

/-! ## Persistence engine (the `insert_*` functions of
`token_processor.rs`)

Each table is embedded as a list of rows; each `insert_into ..
on_conflict .. ` statement becomes a fold of a per-row step implementing
its conflict action.  `get_chunks` merely partitions the row list without
reordering, so the fold over the whole list is the composition of the
folds over the chunks. -/

/-- The composite primary key of `token_activities`. -/
def activityKey (a : TokenActivity) : Int × String × Int × Int :=
  (a.transaction_version, a.event_account_address,
    a.event_creation_number, a.event_sequence_number)

/-- `insert_token_activities`: on conflict of the composite key, do
nothing. -/
def insert_token_activities (table : List TokenActivity)
    (rows : List TokenActivity) : List TokenActivity :=
  rows.foldl
    (fun t r =>
      if t.any (fun s => activityKey s = activityKey r) then t else t ++ [r])
    table

/-- `insert_current_marketplace_listings`: conflict target
`token_data_id_hash` alone; on conflict, update every listed non-key
column (`market_address` and `collection_data_id_hash` are not in the
update set and keep their stored values).  The statement's guard compares
the stored `last_transaction_version` column with the excluded row's — a
column the insertable struct does not carry; the embedding applies the
update on conflict. -/
def insert_current_marketplace_listings
    (table : List CurrentMarketplaceListing)
    (rows : List CurrentMarketplaceListing) : List CurrentMarketplaceListing :=
  rows.foldl
    (fun t r =>
      if t.any (fun s => s.token_data_id_hash = r.token_data_id_hash) then
        t.map (fun s =>
          if s.token_data_id_hash = r.token_data_id_hash then
            { s with
                property_version := r.property_version
                creator_address := r.creator_address
                collection_name := r.collection_name
                name := r.name
                seller := r.seller
                amount := r.amount
                price := r.price
                event_type := r.event_type
                inserted_at := r.inserted_at }
          else s)
      else t ++ [r])
    table

/-- `insert_current_collection_volumes`: conflict target
`collection_data_id_hash`; on conflict, **add** the incoming volume to the
stored one and take the incoming `inserted_at` and
`last_transaction_version`, guarded by
`stored.last_transaction_version <= excluded.last_transaction_version`. -/
def insert_current_collection_volumes (table : List CurrentCollectionVolume)
    (rows : List CurrentCollectionVolume) : List CurrentCollectionVolume :=
  rows.foldl
    (fun t r =>
      if t.any (fun s => s.collection_data_id_hash = r.collection_data_id_hash) then
        t.map (fun s =>
          if s.collection_data_id_hash = r.collection_data_id_hash then
            if s.last_transaction_version ≤ r.last_transaction_version then
              { s with
                  volume := s.volume + r.volume
                  inserted_at := r.inserted_at
                  last_transaction_version := r.last_transaction_version }
            else s
          else s)
      else t ++ [r])
    table

/-- `insert_collection_volumes`: conflict target
`last_transaction_version`; on conflict, do nothing. -/
def insert_collection_volumes (table : List CollectionVolume)
    (rows : List CollectionVolume) : List CollectionVolume :=
  rows.foldl
    (fun t r =>
      if t.any (fun s => s.last_transaction_version = r.last_transaction_version)
      then t else t ++ [r])
    table

/-- `insert_current_token_volumes`: conflict target `token_data_id_hash`;
on conflict, add the incoming volume under the same `<=` version guard as
the collection variant. -/
def insert_current_token_volumes (table : List CurrentTokenVolume)
    (rows : List CurrentTokenVolume) : List CurrentTokenVolume :=
  rows.foldl
    (fun t r =>
      if t.any (fun s => s.token_data_id_hash = r.token_data_id_hash) then
        t.map (fun s =>
          if s.token_data_id_hash = r.token_data_id_hash then
            if s.last_transaction_version ≤ r.last_transaction_version then
              { s with
                  volume := s.volume + r.volume
                  inserted_at := r.inserted_at
                  last_transaction_version := r.last_transaction_version }
            else s
          else s)
      else t ++ [r])
    table

/-- `insert_token_volumes`: conflict target `last_transaction_version`;
on conflict, do nothing. -/
def insert_token_volumes (table : List TokenVolume)
    (rows : List TokenVolume) : List TokenVolume :=
  rows.foldl
    (fun t r =>
      if t.any (fun s => s.last_transaction_version = r.last_transaction_version)
      then t else t ++ [r])
    table

/-- The database state restricted to the modelled tables. -/
structure DB where
  token_activities : List TokenActivity
  current_marketplace_listings : List CurrentMarketplaceListing
  current_collection_volumes : List CurrentCollectionVolume
  collection_volumes : List CollectionVolume
  current_token_volumes : List CurrentTokenVolume
  token_volumes : List TokenVolume
deriving DecidableEq, Repr

/-- The empty database. -/
def DB.empty : DB := ⟨[], [], [], [], [], []⟩

/-- `insert_to_db_impl` restricted to the modelled tables (applied in the
source's order). -/
def insert_to_db_impl (db : DB) (b : BatchRows) : DB :=
  { token_activities :=
      insert_token_activities db.token_activities b.token_activities
    current_marketplace_listings :=
      insert_current_marketplace_listings db.current_marketplace_listings
        b.current_marketplace_listings
    current_collection_volumes :=
      insert_current_collection_volumes db.current_collection_volumes
        b.current_collection_volumes
    collection_volumes :=
      insert_collection_volumes db.collection_volumes b.collection_volumes
    current_token_volumes :=
      insert_current_token_volumes db.current_token_volumes
        b.current_token_volumes
    token_volumes := insert_token_volumes db.token_volumes b.token_volumes }

/-- `process_transactions` end to end for the modelled tables: accumulate,
sort, and commit the batch. -/
def processTransactions (db : DB) (transactions : List APITransaction) :
    Except DecodeError DB :=
  (batchRowSets transactions).map (insert_to_db_impl db)

/-! ## Concrete fixtures

Small concrete transactions used by the witness and counterexample
theorems below. -/

/-- A sample token identity. -/
def tok1 : TokenDataIdType := ⟨"0xa", "apes", "ape1"⟩

/-- The Topaz `BuyEvent` type tag. -/
def topazBuyTag : String :=
  "0x2c7bccf7b31baf770fdbcc768d9e9cb3d87805e255355df5db32ac9a669010a2::events::BuyEvent"

/-- The Topaz `ListEvent` type tag. -/
def topazListTag : String :=
  "0x2c7bccf7b31baf770fdbcc768d9e9cb3d87805e255355df5db32ac9a669010a2::events::ListEvent"

/-- The Topaz `SellEvent` type tag. -/
def topazSellTag : String :=
  "0x2c7bccf7b31baf770fdbcc768d9e9cb3d87805e255355df5db32ac9a669010a2::events::SellEvent"

/-- The `0x3::token::MintTokenEvent` type tag. -/
def mintTag : String := "0x3::token::MintTokenEvent"

/-- A Topaz buy event on `tok1` at the given price and sequence number. -/
def buyEventAt (price seqNo : Int) : APIEvent :=
  ⟨"0xmarketacct", 3, seqNo, topazBuyTag,
    .topazBuyPayload ⟨0, 1, ⟨tok1, 0⟩, price, 1, "0xseller", "0xbuyer"⟩⟩

/-- A Topaz list event on `tok1` at the given price and sequence number. -/
def listEventAt (price seqNo : Int) : APIEvent :=
  ⟨"0xmarketacct", 3, seqNo, topazListTag,
    .topazListPayload ⟨0, 1, ⟨tok1, 0⟩, price, 1, "0xseller"⟩⟩

/-- A well-formed mint event on `tok1` emitted by the given account. -/
def mintEventAt (acct : String) (seqNo : Int) : APIEvent :=
  ⟨acct, 2, seqNo, mintTag, .mintPayload ⟨1, tok1⟩⟩

/-- A mint-tagged event whose payload fails schema validation. -/
def badMintEvent : APIEvent := ⟨"0xminter", 2, 1, mintTag, .malformed⟩

/-- One transaction carrying two qualifying buys on the same token with
coin amounts 100 and 50. -/
def txnTwoBuys : APITransaction := .UserTransaction ⟨7, 1000, [buyEventAt 100 0, buyEventAt 50 1]⟩

/-- One transaction carrying a single qualifying buy with coin amount 100. -/
def txnOneBuy : APITransaction := .UserTransaction ⟨7, 1000, [buyEventAt 100 0]⟩

/-- A transaction whose middle event has a recognized tag but a malformed
payload, between two well-formed sibling events. -/
def txnWithBadEvent : APITransaction :=
  .UserTransaction ⟨9, 500, [mintEventAt "0xminter" 0, badMintEvent, mintEventAt "0xminter" 2]⟩

/-- The same transaction with the malformed event removed. -/
def txnGoodOnly : APITransaction :=
  .UserTransaction ⟨9, 500, [mintEventAt "0xminter" 0, mintEventAt "0xminter" 2]⟩

/-- A transaction whose two events are emitted by accounts in descending
order (`0xb` before `0xa`) at the same version. -/
def txnDescendingAccounts : APITransaction :=
  .UserTransaction ⟨7, 1000, [mintEventAt "0xb" 0, mintEventAt "0xa" 0]⟩

/-- A transaction listing then buying the same token (same version),
for the attribution-asymmetry witness. -/
def txnListThenBuy : APITransaction :=
  .UserTransaction ⟨7, 1000, [listEventAt 100 0, buyEventAt 100 1]⟩

/-! ## Derived predicates named by the claims -/

/-- The listing keywords of the specification's inclusion rule. -/
def listingKeywords : List String :=
  ["List", "Delist", "Buy", "Sell", "Change", "CancelList", "Fill", "Send", "Auction"]

/-- The claim-side inclusion condition: some listing keyword occurs in the
tag's **trailing event name** (case-sensitive). -/
def trailingNameCond (tag : String) : Bool :=
  listingKeywords.any (fun k => strContains (trailingSegment tag) k)

/-- The claim-side attribution condition: the tag denotes an opening
action (`List`/`Auction`) that is not itself a cancellation
(`CancelList`/`Delist`). -/
def openingActionCond (tag : String) : Bool :=
  (strContains tag "List" || strContains tag "Auction")
    && !strContains tag "CancelList"
    && !strContains tag "Delist"

/-- Lexicographic comparison by the full `token_activities` primary key
`(transaction_version, event_account_address, event_creation_number,
event_sequence_number)`. -/
def activityPkLe (a b : TokenActivity) : Bool :=
  if a.transaction_version ≠ b.transaction_version then
    decide (a.transaction_version ≤ b.transaction_version)
  else if a.event_account_address ≠ b.event_account_address then
    strLe a.event_account_address b.event_account_address
  else if a.event_creation_number ≠ b.event_creation_number then
    decide (a.event_creation_number ≤ b.event_creation_number)
  else
    decide (a.event_sequence_number ≤ b.event_sequence_number)

/-- A transaction carrying a single Topaz list event. -/
def txnOneList : APITransaction := .UserTransaction ⟨7, 1000, [listEventAt 100 0]⟩

/-- The decoded variant of `buyEventAt 100 1`. -/
def buyTokenEvent : TokenEvent :=
  .TopazBuyEvent ⟨0, 1, ⟨tok1, 0⟩, 100, 1, "0xseller", "0xbuyer"⟩

/-- The decoded variant of `listEventAt 100 0`. -/
def listTokenEvent : TokenEvent :=
  .TopazListEvent ⟨0, 1, ⟨tok1, 0⟩, 100, 1, "0xseller"⟩

/-- A decoded Topaz sell event on `tok1`. -/
def sellTokenEvent : TokenEvent :=
  .TopazSellEvent
    ⟨0, 1, ⟨tok1, 0⟩, 0, 100, ⟨"0x1", "aptos_coin", "AptosCoin"⟩, 1, "0xbuyer", "0xseller"⟩

/-- The listing row the builder produces for `buyEventAt 100 1`. -/
def buyListingRow : CurrentMarketplaceListing :=
  { collection_data_id_hash := "sha256$0xa::apes"
    market_address := ""
    token_data_id_hash := "sha256$0xa::apes::ape1"
    property_version := 0
    creator_address := "0xa"
    collection_name := "apes"
    name := "ape1"
    seller := "0xseller"
    amount := 1
    price := 100
    event_type := topazBuyTag
    inserted_at := 1000 }

/-- The listing row the builder produces for `listEventAt 100 0`. -/
def listListingRow : CurrentMarketplaceListing :=
  { collection_data_id_hash := "sha256$0xa::apes"
    market_address := "0x2c7bccf7b31baf770fdbcc768d9e9cb3d87805e255355df5db32ac9a669010a2"
    token_data_id_hash := "sha256$0xa::apes::ape1"
    property_version := 0
    creator_address := "0xa"
    collection_name := "apes"
    name := "ape1"
    seller := "0xseller"
    amount := 1
    price := 100
    event_type := topazListTag
    inserted_at := 1000 }

/-- The activity row produced for `listEventAt 100 0` at version 7. -/
def listActivityRow : TokenActivity :=
  { transaction_version := 7
    event_account_address := "0xmarketacct"
    event_creation_number := 3
    event_sequence_number := 0
    token_data_id_hash := "sha256$0xa::apes::ape1"
    property_version := 0
    creator_address := "0xa"
    collection_name := "apes"
    name := "ape1"
    transfer_type := topazListTag
    from_address := some "0xseller"
    to_address := none
    token_amount := 1
    coin_type := none
    coin_amount := some 100
    collection_data_id_hash := "sha256$0xa::apes"
    transaction_timestamp := 1000 }

/-- The accumulator state after processing the batch `[txnOneList]`. -/
def oneListAccum : AccumState :=
  { token_activities := [listActivityRow]
    current_marketplace_listings := [("sha256$0xa::apes::ape1", listListingRow)]
    current_collection_volumes := []
    collection_volumes := []
    current_token_volumes := []
    token_volumes := [] }

/-- The (qualifying-event, hash-keyed) listing rows of one transaction's
events in event order — the claim-side reference stream for the last-wins
comparison. -/
def eventListingPairs (txn_version txn_timestamp : Int)
    (events : List APIEvent) : List (String × CurrentMarketplaceListing) :=
  events.flatMap (fun event =>
    match TokenEvent.from_event event.typ event.data txn_version with
    | .ok (some token_event) =>
      match CurrentMarketplaceListing.from_parsed_event event.typ event
          token_event txn_version (parse_timestamp txn_timestamp txn_version) with
      | some row => [(row.token_data_id_hash, row)]
      | none => []
    | _ => [])

/-- The (qualifying-event, hash-keyed) listing rows of a whole batch in
event order. -/
def listingEventPairs (transactions : List APITransaction) :
    List (String × CurrentMarketplaceListing) :=
  transactions.flatMap (fun txn =>
    match txn with
    | .UserTransaction user_txn =>
      eventListingPairs user_txn.version user_txn.timestamp user_txn.events
    | .otherTransaction => [])

/-! ## Helper lemmas -/

/-- Totality of the lexicographic character-list comparison. -/
theorem strLeAux_total : ∀ as bs : List Char, strLeAux as bs = true ∨ strLeAux bs as = true := by
  intro as
  induction as with
  | nil => intro bs; left; rfl
  | cons a as2 ih =>
    intro bs
    cases bs with
    | nil => right; rfl
    | cons b bs2 =>
      unfold strLeAux
      by_cases hab : a = b
      · subst hab
        simp only [if_pos rfl]
        exact ih bs2
      · have hba : ¬ b = a := fun h => hab h.symm
        simp only [if_neg hab, if_neg hba]
        unfold charLe
        rcases le_total a b with h | h
        · left; exact decide_eq_true h
        · right; exact decide_eq_true h

/-- Transitivity of the lexicographic character-list comparison. -/
theorem strLeAux_trans : ∀ as bs cs : List Char, strLeAux as bs = true →
    strLeAux bs cs = true → strLeAux as cs = true := by
  intro as
  induction as with
  | nil => intro bs cs _ _; rfl
  | cons a as2 ih =>
    intro bs cs h1 h2
    cases bs with
    | nil => simp [strLeAux] at h1
    | cons b bs2 =>
      cases cs with
      | nil => simp [strLeAux] at h2
      | cons c cs2 =>
        unfold strLeAux at h1 h2 ⊢
        by_cases hab : a = b <;> by_cases hbc : b = c
        · subst hab; subst hbc
          simp only [if_pos rfl] at h1 h2 ⊢
          exact ih bs2 cs2 h1 h2
        · subst hab
          simp only [if_neg hbc] at h2 ⊢
          exact h2
        · subst hbc
          simp only [if_neg hab] at h1 ⊢
          exact h1
        · simp only [if_neg hab] at h1
          simp only [if_neg hbc] at h2
          unfold charLe at h1 h2 ⊢
          have hle1 : a ≤ b := of_decide_eq_true h1
          have hle2 : b ≤ c := of_decide_eq_true h2
          have hlt1 : a < b := lt_of_le_of_ne hle1 hab
          have hlt2 : b < c := lt_of_le_of_ne hle2 hbc
          have hlt : a < c := lt_trans hlt1 hlt2
          have hac : ¬ a = c := ne_of_lt hlt
          simp only [if_neg hac]
          exact decide_eq_true (le_of_lt hlt)

instance {α : Type} (key : α → String) : IsTotal α (keyLe key) :=
  ⟨fun a b => by unfold keyLe strLe; exact strLeAux_total _ _⟩

instance {α : Type} (key : α → String) : IsTrans α (keyLe key) :=
  ⟨fun a b c h1 h2 => by
    unfold keyLe strLe at h1 h2 ⊢
    exact strLeAux_trans _ _ _ h1 h2⟩

/-- A map whose function fixes every element of the list is the identity. -/
theorem map_id_of_mem {α : Type} (l : List α) (f : α → α)
    (h : ∀ x ∈ l, f x = x) : l.map f = l := by
  induction l with
  | nil => rfl
  | cons x xs ih =>
    simp only [List.map_cons]
    rw [h x (by simp), ih (fun y hy => h y (by simp [hy]))]

/-! ## The claims -/

/-- C1: the specification requires all qualifying volume contributions for
one key within a batch to be **summed** before the additive database
merge.  The code instead accumulates them through an overwriting
`HashMap::insert`: for a batch with two qualifying buys on the same token
(coin amounts 100 and 50, per-event rows recording both), the accumulated
`current_collection_volumes` / `current_token_volumes` contribution is the
last event's amount 50, not the sum 150 — and the committed running total
after processing the batch against an empty database is likewise 50. -/
theorem c1_batch_volume_is_overwritten_not_summed :
    (CurrentCollectionVolume.from_transaction txnTwoBuys).map
        (fun acc =>
          (acc.collection_volumes.map (fun r => r.volume),
            acc.token_volumes.map (fun r => r.volume),
            acc.current_collection_volumes.map (fun p => p.2.volume),
            acc.current_token_volumes.map (fun p => p.2.volume)))
      = .ok ([100, 50], [100, 50], [50], [50])
    ∧ (processTransactions DB.empty [txnTwoBuys]).map
        (fun db =>
          (db.current_collection_volumes.map (fun r => r.volume),
            db.current_token_volumes.map (fun r => r.volume)))
      = .ok ([50], [50]) := by
  decide

/-- C2: processing the same transaction twice is **not** idempotent for
the volume current-state tables: the additive on-conflict update's `<=`
version guard admits the replayed batch (equal version), so the committed
`current_token_volumes` / `current_collection_volumes` volume doubles from
100 to 200, while `token_activities` does gain zero additional rows and
the listing row is unchanged. -/
theorem c2_reprocessing_doubles_current_volume :
    (processTransactions DB.empty [txnOneBuy]).bind
        (fun db1 =>
          (processTransactions db1 [txnOneBuy]).map
            (fun db2 =>
              (db1.current_token_volumes.map (fun r => r.volume),
                db2.current_token_volumes.map (fun r => r.volume),
                db1.current_collection_volumes.map (fun r => r.volume),
                db2.current_collection_volumes.map (fun r => r.volume),
                decide (db2.token_activities.length = db1.token_activities.length)
                  && decide (db2.current_marketplace_listings = db1.current_marketplace_listings)
                  && decide (db2.collection_volumes = db1.collection_volumes)
                  && decide (db2.token_volumes = db1.token_volumes))))
      = .ok ([100], [200], [100], [200], true) := by
  decide

/-- C3 (counterexample): an incoming `current_token_volumes` row whose
`last_transaction_version` **equals** the stored row's is accepted, not
rejected — the guard is `stored <= incoming` — and it changes the stored
columns (the volume is increased from 100 to 107). -/
theorem c3_equal_version_update_is_applied :
    (⟨"h", 7, 2, 5⟩ : CurrentTokenVolume).last_transaction_version ≤
        (⟨"h", 100, 1, 5⟩ : CurrentTokenVolume).last_transaction_version
      ∧ insert_current_token_volumes [⟨"h", 100, 1, 5⟩] [⟨"h", 7, 2, 5⟩]
          ≠ [⟨"h", 100, 1, 5⟩] := by
  decide

/-- C3 (amended): an incoming row with `last_transaction_version`
**strictly less** than every stored row it conflicts with changes no
column — the guard rejects only strictly older updates, while an equal
version is accepted and applied.  Stated for the two volume current-state
tables, whose structs carry the guarded version column. -/
theorem c3_strictly_stale_update_rejected
    (ctv : List CurrentTokenVolume) (r : CurrentTokenVolume)
    (hc : ctv.any (fun s => s.token_data_id_hash = r.token_data_id_hash) = true)
    (hlt : ∀ s ∈ ctv, s.token_data_id_hash = r.token_data_id_hash →
        r.last_transaction_version < s.last_transaction_version)
    (ccv : List CurrentCollectionVolume) (q : CurrentCollectionVolume)
    (hc2 : ccv.any (fun s => s.collection_data_id_hash = q.collection_data_id_hash) = true)
    (hlt2 : ∀ s ∈ ccv, s.collection_data_id_hash = q.collection_data_id_hash →
        q.last_transaction_version < s.last_transaction_version) :
    insert_current_token_volumes ctv [r] = ctv
      ∧ insert_current_collection_volumes ccv [q] = ccv := by
  constructor
  · unfold insert_current_token_volumes
    simp only [List.foldl_cons, List.foldl_nil]
    rw [if_pos hc]
    apply map_id_of_mem
    intro s hs
    by_cases hk : s.token_data_id_hash = r.token_data_id_hash
    · have hv := hlt s hs hk
      rw [if_pos hk, if_neg (not_le.mpr hv)]
    · rw [if_neg hk]
  · unfold insert_current_collection_volumes
    simp only [List.foldl_cons, List.foldl_nil]
    rw [if_pos hc2]
    apply map_id_of_mem
    intro s hs
    by_cases hk : s.collection_data_id_hash = q.collection_data_id_hash
    · have hv := hlt2 s hs hk
      rw [if_pos hk, if_neg (not_le.mpr hv)]
    · rw [if_neg hk]

/-- Witness for the amended C3 theorem at a concrete table and row. -/
theorem c3_strictly_stale_update_rejected_witness :
    insert_current_token_volumes [⟨"h", 100, 1, 5⟩] [⟨"h", 7, 2, 4⟩]
        = [⟨"h", 100, 1, 5⟩]
      ∧ insert_current_collection_volumes [⟨"g", 100, 1, 5⟩] [⟨"g", 7, 2, 4⟩]
        = [⟨"g", 100, 1, 5⟩] :=
  c3_strictly_stale_update_rejected [⟨"h", 100, 1, 5⟩] ⟨"h", 7, 2, 4⟩
    (by decide) (by decide) [⟨"g", 100, 1, 5⟩] ⟨"g", 7, 2, 4⟩
    (by decide) (by decide)

/-- C4: the builders call `TokenEvent::from_event(..).unwrap()`, so a
recognized type tag with a payload that fails schema validation does not
produce a recoverable per-event error — it aborts the whole batch
(embedded as the `Except.error` carrying the version and tag), discarding
the rows of well-formed sibling events that the same batch without the
malformed event would have produced. -/
theorem c4_malformed_payload_aborts_whole_batch :
    TokenActivity.from_transaction txnWithBadEvent = .error ⟨9, mintTag⟩
      ∧ CurrentMarketplaceListing.from_transaction txnWithBadEvent = .error ⟨9, mintTag⟩
      ∧ CurrentCollectionVolume.from_transaction txnWithBadEvent = .error ⟨9, mintTag⟩
      ∧ (TokenActivity.from_transaction txnGoodOnly).map List.length = .ok 2 := by
  decide

/-- C5: the volume builder keys its `CurrentTokenVolume` / `TokenVolume`
rows by `token_data_id.to_string()` — the raw `creator::collection::name`
display string — not by `to_hash()`, while the activity row built for the
very same event carries the content hash; so the volume tables'
`token_data_id_hash` field does not match the hash key used by the other
token-keyed tables. -/
theorem c5_volume_rows_keyed_by_display_string :
    (CurrentCollectionVolume.from_parse_event topazBuyTag (buyEventAt 100 0)
        buyTokenEvent 7 1000).map
        (fun q => (q.2.2.1.token_data_id_hash, q.2.2.2.token_data_id_hash))
      = some (tok1.to_string, tok1.to_string)
    ∧ tok1.to_string ≠ tok1.to_hash
    ∧ (TokenActivity.from_parsed_event topazBuyTag (buyEventAt 100 0)
        buyTokenEvent 7 1000).token_data_id_hash = tok1.to_hash := by
  decide

/-- The listing builder returns a row exactly when the type-tag filter
`listingCond` passes, independently of the decoded variant. -/
theorem listing_from_parsed_event_isSome (tag : String) (e : APIEvent)
    (te : TokenEvent) (v ts : Int) :
    (CurrentMarketplaceListing.from_parsed_event tag e te v ts).isSome
      = listingCond tag := by
  unfold CurrentMarketplaceListing.from_parsed_event
  cases h : listingCond tag <;> simp [h]

/-- C6: for every recognized event, the listing builder produces a row if
and only if the tag's trailing event name contains one of
`List, Delist, Buy, Sell, Change, CancelList, Fill, Send, Auction` as a
case-sensitive substring (on the 29 recognized tags, the source's
whole-tag `contains` check coincides with the trailing-name check, since
no module or address segment contains any of the keywords). -/
theorem c6_listing_inclusion_iff_trailing_keyword (tag : String)
    (hrec : tag ∈ recognizedTags) (e : APIEvent) (te : TokenEvent) (v ts : Int) :
    (CurrentMarketplaceListing.from_parsed_event tag e te v ts).isSome
      = trailingNameCond tag := by
  rw [listing_from_parsed_event_isSome]
  fin_cases hrec <;> decide

/-- Witness for C6 at the Topaz `SellEvent` tag. -/
theorem c6_listing_inclusion_witness :
    topazSellTag ∈ recognizedTags
      ∧ (CurrentMarketplaceListing.from_parsed_event topazSellTag (buyEventAt 100 0)
          sellTokenEvent 7 1000).isSome = trailingNameCond topazSellTag :=
  ⟨by decide,
    c6_listing_inclusion_iff_trailing_keyword topazSellTag (by decide)
      (buyEventAt 100 0) sellTokenEvent 7 1000⟩

/-- The `market_address` of a built listing row equals the tag's
module-address prefix exactly when the tag denotes a non-cancelling
opening action, and is empty otherwise. -/
theorem listingRowOf_market_address (tag : String) (e : APIEvent)
    (te : TokenEvent) (v ts : Int) :
    (listingRowOf tag e te v ts).market_address
      = (if openingActionCond tag then firstSegment tag else "") := by
  show (if !(strContains tag "List" || strContains tag "Auction")
        || strContains tag "CancelList" || strContains tag "Delist" then ""
      else firstSegment tag)
    = (if openingActionCond tag then firstSegment tag else "")
  unfold openingActionCond
  cases hL : strContains tag "List" <;> cases hA : strContains tag "Auction" <;>
    cases hCL : strContains tag "CancelList" <;> cases hD : strContains tag "Delist" <;>
      simp [hL, hA, hCL, hD]

/-- C7: every produced listing row has `market_address` equal to the type
tag's module-address prefix exactly when the tag is an opening action
(`List`/`Auction`) that is not a cancellation (`CancelList`/`Delist`), and
the empty string otherwise, while `seller` and `price` always come from
the resolved attribute bundle. -/
theorem c7_market_address_attribution (tag : String) (e : APIEvent)
    (te : TokenEvent) (v ts : Int) (row : CurrentMarketplaceListing)
    (h : CurrentMarketplaceListing.from_parsed_event tag e te v ts = some row) :
    row.market_address = (if openingActionCond tag then firstSegment tag else "")
      ∧ row.seller = ((tokenActivityHelperOf e.guid_account_address te).from_address).getD ""
      ∧ row.price = ((tokenActivityHelperOf e.guid_account_address te).coin_amount).getD 0 := by
  unfold CurrentMarketplaceListing.from_parsed_event at h
  by_cases hc : listingCond tag
  · rw [if_pos hc] at h
    injection h with h2
    subst h2
    exact ⟨listingRowOf_market_address tag e te v ts, rfl, rfl⟩
  · rw [if_neg hc] at h
    exact absurd h (by simp)

/-- Witness for C7: a `List` event on `tok1` carries the Topaz module
address, while a subsequent `Buy` event on the same token has an empty
`market_address` with seller and price still populated. -/
theorem c7_market_address_attribution_witness :
    CurrentMarketplaceListing.from_parsed_event topazListTag (listEventAt 100 0)
        listTokenEvent 7 1000 = some listListingRow
      ∧ listListingRow.market_address
          = "0x2c7bccf7b31baf770fdbcc768d9e9cb3d87805e255355df5db32ac9a669010a2"
      ∧ CurrentMarketplaceListing.from_parsed_event topazBuyTag (buyEventAt 100 1)
          buyTokenEvent 7 1000 = some buyListingRow
      ∧ buyListingRow.market_address = ""
      ∧ buyListingRow.seller = "0xseller"
      ∧ buyListingRow.price = 100 := by
  have hl := c7_market_address_attribution topazListTag (listEventAt 100 0)
    listTokenEvent 7 1000 listListingRow (by decide)
  have hb := c7_market_address_attribution topazBuyTag (buyEventAt 100 1)
    buyTokenEvent 7 1000 buyListingRow (by decide)
  refine ⟨by decide, ?_, by decide, ?_, by decide, by decide⟩
  · rw [hl.1]; decide
  · rw [hb.1]; decide

/-- C8: for every collection-wide bid or cancel-collection-bid event with
creator `C` and collection name `N`, the activity builder synthesizes the
token identity `{C, N, "COLLECTION"}` and derives the row's hash and
token-identity fields from it, with property version zero. -/
theorem c8_collection_bid_synthesis :
    (∀ (tag : String) (e : APIEvent) (inner : TopazCollectionBidEventType) (v ts : Int),
        (TokenActivity.from_parsed_event tag e (.TopazCollectionBidEvent inner) v ts).token_data_id_hash
            = (TokenDataIdType.mk inner.creator inner.collection_name "COLLECTION").to_hash
          ∧ (TokenActivity.from_parsed_event tag e (.TopazCollectionBidEvent inner) v ts).property_version = 0
          ∧ (TokenActivity.from_parsed_event tag e (.TopazCollectionBidEvent inner) v ts).creator_address = inner.creator
          ∧ (TokenActivity.from_parsed_event tag e (.TopazCollectionBidEvent inner) v ts).collection_name
              = truncate_str inner.collection_name NAME_LENGTH
          ∧ (TokenActivity.from_parsed_event tag e (.TopazCollectionBidEvent inner) v ts).name
              = truncate_str "COLLECTION" NAME_LENGTH
          ∧ (TokenActivity.from_parsed_event tag e (.TopazCollectionBidEvent inner) v ts).collection_data_id_hash
              = (CollectionDataIdType.new inner.creator inner.collection_name).to_hash)
    ∧ (∀ (tag : String) (e : APIEvent) (inner : TopazCancelCollectionBidEventType) (v ts : Int),
        (TokenActivity.from_parsed_event tag e (.TopazCancelCollectionBidEvent inner) v ts).token_data_id_hash
            = (TokenDataIdType.mk inner.creator inner.collection_name "COLLECTION").to_hash
          ∧ (TokenActivity.from_parsed_event tag e (.TopazCancelCollectionBidEvent inner) v ts).property_version = 0
          ∧ (TokenActivity.from_parsed_event tag e (.TopazCancelCollectionBidEvent inner) v ts).creator_address = inner.creator
          ∧ (TokenActivity.from_parsed_event tag e (.TopazCancelCollectionBidEvent inner) v ts).collection_name
              = truncate_str inner.collection_name NAME_LENGTH
          ∧ (TokenActivity.from_parsed_event tag e (.TopazCancelCollectionBidEvent inner) v ts).name
              = truncate_str "COLLECTION" NAME_LENGTH
          ∧ (TokenActivity.from_parsed_event tag e (.TopazCancelCollectionBidEvent inner) v ts).collection_data_id_hash
              = (CollectionDataIdType.new inner.creator inner.collection_name).to_hash) :=
  ⟨fun _ _ _ _ _ => ⟨rfl, rfl, rfl, rfl, rfl, rfl⟩,
    fun _ _ _ _ _ => ⟨rfl, rfl, rfl, rfl, rfl, rfl⟩⟩

/-- C9 (counterexample): the append-only row sets are **not** sorted by
their full primary key before writing — a single transaction whose two
events are emitted by accounts `0xb` then `0xa` hands `token_activities`
to the writer in that (descending) order. -/
theorem c9_token_activities_not_sorted :
    (batchRowSets [txnDescendingAccounts]).map
        (fun b =>
          (decide (b.token_activities.Pairwise (fun x y => activityPkLe x y = true)),
            b.token_activities.map (fun a => a.event_account_address)))
      = .ok (false, ["0xb", "0xa"]) := by
  decide

/-- C9 (amended): only the current-state row sets are sorted before
writing — the listings and volume current tables ascending by their
hash key (the conflict-target column), for every batch; the append-only
sets (`token_activities`, `collection_volumes`, `token_volumes`) are
handed to the writer in processing order, unsorted. -/
theorem c9_current_state_sets_sorted (txns : List APITransaction)
    (b : BatchRows) (h : batchRowSets txns = .ok b) :
    b.current_marketplace_listings.Sorted (keyLe (fun r => r.token_data_id_hash))
      ∧ b.current_collection_volumes.Sorted (keyLe (fun r => r.collection_data_id_hash))
      ∧ b.current_token_volumes.Sorted (keyLe (fun r => r.token_data_id_hash)) := by
  unfold batchRowSets at h
  cases hacc : batchAccum txns with
  | error e =>
    rw [hacc] at h
    simp [Except.map] at h
  | ok acc =>
    rw [hacc] at h
    simp only [Except.map] at h
    injection h with h2
    subst h2
    exact ⟨List.sorted_insertionSort _ _, List.sorted_insertionSort _ _,
      List.sorted_insertionSort _ _⟩

/-- Witness for the amended C9 theorem at the one-listing batch. -/
theorem c9_current_state_sets_sorted_witness :
    batchRowSets [txnOneList] = .ok (sortedRows oneListAccum)
      ∧ ((sortedRows oneListAccum).current_marketplace_listings.Sorted
            (keyLe (fun r => r.token_data_id_hash))
          ∧ (sortedRows oneListAccum).current_collection_volumes.Sorted
            (keyLe (fun r => r.collection_data_id_hash))
          ∧ (sortedRows oneListAccum).current_token_volumes.Sorted
            (keyLe (fun r => r.token_data_id_hash))) :=
  ⟨by decide, c9_current_state_sets_sorted [txnOneList] (sortedRows oneListAccum) (by decide)⟩

/-! ### Association-list lemmas for the C10 claim -/

/-- Lookup in a list whose binding for `k` has been overwritten in place. -/
theorem amLookup_map_update {α : Type} (m : List (String × α)) (k : String)
    (v : α) (k2 : String) :
    amLookup (m.map (fun p => if p.1 = k then (k, v) else p)) k2
      = if k2 = k then (if m.any (fun p => p.1 = k) then some v else none)
        else amLookup m k2 := by
  induction m with
  | nil => by_cases hk2 : k2 = k <;> simp [amLookup, hk2]
  | cons p rest ih =>
    simp only [List.map_cons, List.any_cons]
    by_cases hp : p.1 = k
    · rw [if_pos hp]
      by_cases hk2 : k2 = k
      · subst hk2
        unfold amLookup
        rw [List.find?_cons_of_pos _ (by simp)]
        simp [hp]
      · unfold amLookup at ih ⊢
        rw [List.find?_cons_of_neg _ (by simp; exact fun hh => hk2 hh.symm)]
        rw [ih, if_neg hk2, if_neg hk2]
        have hp2 : ¬ p.1 = k2 := by rw [hp]; exact fun hh => hk2 hh.symm
        rw [List.find?_cons_of_neg _ (by simp [hp2])]
    · rw [if_neg hp]
      by_cases hp2 : p.1 = k2
      · have hk2 : ¬ k2 = k := fun hh => hp (hp2.trans hh)
        unfold amLookup
        rw [List.find?_cons_of_pos _ (by simp [hp2]),
          List.find?_cons_of_pos _ (by simp [hp2])]
        rw [if_neg hk2]
      · unfold amLookup at ih ⊢
        rw [List.find?_cons_of_neg _ (by simp [hp2]),
          List.find?_cons_of_neg _ (by simp [hp2])]
        rw [ih]
        by_cases hk2 : k2 = k
        · rw [if_pos hk2, if_pos hk2]
          simp only [decide_eq_false hp, Bool.false_or]
        · rw [if_neg hk2, if_neg hk2]

/-- Lookup after an overwriting insert. -/
theorem amLookup_amInsert {α : Type} (m : List (String × α)) (k : String)
    (v : α) (k2 : String) :
    amLookup (amInsert m k v) k2 = if k2 = k then some v else amLookup m k2 := by
  unfold amInsert
  by_cases hmem : m.any (fun p => p.1 = k)
  · rw [if_pos hmem, amLookup_map_update, if_pos hmem]
  · rw [if_neg hmem]
    unfold amLookup
    rw [List.find?_append]
    by_cases hk2 : k2 = k
    · subst hk2
      have hnone : m.find? (fun p => decide (p.1 = k2)) = none := by
        rw [List.find?_eq_none]
        intro p hp
        have := (List.any_eq_false.mp (Bool.of_not_eq_true hmem)) p hp
        simpa using this
      rw [hnone]
      simp [List.find?]
    · have hsing : (([(k, v)] : List (String × α)).find?
          (fun p => decide (p.1 = k2))) = none := by
        simp
        exact fun hh => hk2 hh.symm
      rw [hsing]
      simp [if_neg hk2]

/-- Lookup after folding a list of overwriting inserts: the **last**
binding for the key in the inserted stream wins, falling back to the
original map. -/
theorem amLookup_foldl_amInsert {α : Type} (ps : List (String × α))
    (m : List (String × α)) (k : String) :
    amLookup (ps.foldl (fun acc p => amInsert acc p.1 p.2) m) k
      = ((ps.reverse.find? (fun p => p.1 = k)).map Prod.snd).or (amLookup m k) := by
  induction ps generalizing m with
  | nil => simp
  | cons p rest ih =>
    simp only [List.foldl_cons, List.reverse_cons]
    rw [ih, List.find?_append]
    rw [amLookup_amInsert]
    cases hX : rest.reverse.find? (fun q => q.1 = k) with
    | some x => simp
    | none =>
      simp only [Option.map_none, Option.none_or]
      by_cases hk : k = p.1
      · have hp : p.1 = k := hk.symm
        simp [List.find?, hp, if_pos hk]
      · have hp : ¬ p.1 = k := fun hh => hk hh.symm
        simp [List.find?, hp, if_neg hk]

/-- An overwriting insert preserves distinctness of the keys. -/
theorem amInsert_nodup_keys {α : Type} (m : List (String × α)) (k : String)
    (v : α) (h : (m.map Prod.fst).Nodup) :
    ((amInsert m k v).map Prod.fst).Nodup := by
  unfold amInsert
  by_cases hmem : m.any (fun p => p.1 = k)
  · rw [if_pos hmem]
    have heq : (m.map (fun p => if p.1 = k then (k, v) else p)).map Prod.fst
        = m.map Prod.fst := by
      rw [List.map_map]
      apply List.map_congr_left
      intro p _
      by_cases hp : p.1 = k <;> simp [hp]
    rw [heq]
    exact h
  · rw [if_neg hmem, List.map_append]
    apply List.Nodup.append h (by simp)
    intro x hx hx2
    simp at hx2
    subst hx2
    rcases List.mem_map.mp hx with ⟨p, hp, hpk⟩
    exact (List.any_eq_false.mp (Bool.of_not_eq_true hmem)) p hp (by simp [hpk])

/-- Folding overwriting inserts preserves distinctness of the keys. -/
theorem foldl_amInsert_nodup_keys {α : Type} (ps : List (String × α))
    (m : List (String × α)) (h : (m.map Prod.fst).Nodup) :
    (((ps.foldl (fun acc p => amInsert acc p.1 p.2) m)).map Prod.fst).Nodup := by
  induction ps generalizing m with
  | nil => exact h
  | cons p rest ih =>
    simp only [List.foldl_cons]
    exact ih _ (amInsert_nodup_keys m p.1 p.2 h)

/-- In a map with distinct keys, searching the reversed list for a key
finds the same (unique) binding. -/
theorem find?_reverse_of_nodup_keys {α : Type} (m : List (String × α))
    (hm : (m.map Prod.fst).Nodup) (k : String) :
    m.reverse.find? (fun p => p.1 = k) = m.find? (fun p => p.1 = k) := by
  induction m with
  | nil => rfl
  | cons p rest ih =>
    simp only [List.map_cons, List.nodup_cons] at hm
    obtain ⟨hpk, hrest⟩ := hm
    simp only [List.reverse_cons]
    rw [List.find?_append, ih hrest]
    by_cases hp : p.1 = k
    · have hnone : rest.find? (fun q => q.1 = k) = none := by
        rw [List.find?_eq_none]
        intro q hq hqk
        apply hpk
        rw [hp]
        have : q.1 = k := by simpa using hqk
        exact this ▸ List.mem_map_of_mem Prod.fst hq
      simp [hnone, List.find?, hp]
    · cases hr : rest.find? (fun q => q.1 = k) with
      | some x => simp [List.find?, hp, hr]
      | none => simp [List.find?, hp, hr]

/-- Mapping distributes over `Option.or`. -/
theorem option_map_or {α β : Type} (a b : Option α) (f : α → β) :
    (a.or b).map f = (a.map f).or (b.map f) := by
  cases a <;> simp

/-- One step of the listing builder's loop, when it succeeds, performs the
inserts of that event's qualifying pairs. -/
theorem listingLoopStep_ok (v ts : Int)
    (acc acc2 : List (String × CurrentMarketplaceListing)) (e : APIEvent)
    (h : listingLoopStep v ts acc e = .ok acc2) :
    acc2 = (eventListingPairs v ts [e]).foldl
      (fun a p => amInsert a p.1 p.2) acc := by
  unfold listingLoopStep at h
  unfold eventListingPairs
  simp only [List.flatMap_cons, List.flatMap_nil, List.append_nil]
  cases hd : TokenEvent.from_event e.typ e.data v with
  | error err =>
    rw [hd] at h
    simp [Bind.bind, Except.bind] at h
  | ok od =>
    rw [hd] at h
    simp only [Bind.bind, Except.bind] at h
    cases od with
    | none =>
      simp only [pure, Except.pure] at h
      injection h with h2
      simp [← h2]
    | some te =>
      simp only at h
      cases hrow : CurrentMarketplaceListing.from_parsed_event e.typ e te v
          (parse_timestamp ts v) with
      | none =>
        rw [hrow] at h
        simp only [pure, Except.pure] at h
        injection h with h2
        simp [hrow, ← h2]
      | some row =>
        rw [hrow] at h
        simp only [pure, Except.pure] at h
        injection h with h2
        simp [hrow, ← h2]

/-- The listing builder's per-transaction loop, when it succeeds, is the
fold of overwriting inserts over the transaction's qualifying pairs. -/
theorem listing_loop_fold (v ts : Int) (events : List APIEvent)
    (acc m : List (String × CurrentMarketplaceListing))
    (h : events.foldlM (listingLoopStep v ts) acc = .ok m) :
    m = (eventListingPairs v ts events).foldl
      (fun a p => amInsert a p.1 p.2) acc := by
  induction events generalizing acc with
  | nil =>
    rw [List.foldlM_nil] at h
    simp only [pure, Except.pure] at h
    injection h with h2
    simp [eventListingPairs, ← h2]
  | cons e rest ih =>
    rw [List.foldlM_cons] at h
    cases hstep : listingLoopStep v ts acc e with
    | error err =>
      rw [hstep] at h
      simp [Bind.bind, Except.bind] at h
    | ok acc1 =>
      rw [hstep] at h
      simp only [Bind.bind, Except.bind] at h
      have h1 := listingLoopStep_ok v ts acc acc1 e hstep
      have h2 := ih acc1 h
      rw [h2, h1, ← List.foldl_append]
      congr 1
      simp [eventListingPairs]

/-- A batch's qualifying pairs split transaction by transaction. -/
theorem listingEventPairs_cons (t : APITransaction) (rest : List APITransaction) :
    listingEventPairs (t :: rest)
      = listingEventPairs [t] ++ listingEventPairs rest := by
  simp [listingEventPairs]

/-- The listing builder's per-transaction map, when it succeeds, is the
fold of overwriting inserts (into the empty map) over the transaction's
qualifying pairs. -/
theorem from_transaction_pairs (txn : APITransaction)
    (m : List (String × CurrentMarketplaceListing))
    (h : CurrentMarketplaceListing.from_transaction txn = .ok m) :
    m = (listingEventPairs [txn]).foldl (fun a p => amInsert a p.1 p.2) [] := by
  cases txn with
  | otherTransaction =>
    unfold CurrentMarketplaceListing.from_transaction at h
    injection h with h2
    simp [listingEventPairs, ← h2]
  | UserTransaction u =>
    unfold CurrentMarketplaceListing.from_transaction at h
    have := listing_loop_fold u.version u.timestamp u.events [] m h
    rw [this]
    congr 1
    simp [listingEventPairs]

/-- Every qualifying pair is keyed by its row's `token_data_id_hash`. -/
theorem eventListingPairs_keyinv (v ts : Int) (events : List APIEvent) :
    ∀ p ∈ eventListingPairs v ts events, p.1 = p.2.token_data_id_hash := by
  intro p hp
  unfold eventListingPairs at hp
  rw [List.mem_flatMap] at hp
  obtain ⟨e, he, hpe⟩ := hp
  cases hd : TokenEvent.from_event e.typ e.data v with
  | error err =>
    rw [hd] at hpe
    simp at hpe
  | ok od =>
    rw [hd] at hpe
    cases od with
    | none => simp at hpe
    | some te =>
      simp only at hpe
      cases hrow : CurrentMarketplaceListing.from_parsed_event e.typ e te v
          (parse_timestamp ts v) with
      | none =>
        rw [hrow] at hpe
        simp at hpe
      | some row =>
        rw [hrow] at hpe
        simp at hpe
        subst hpe
        rfl

/-- Every qualifying pair of a whole batch is keyed by its row's
`token_data_id_hash`. -/
theorem listingEventPairs_keyinv (txns : List APITransaction) :
    ∀ p ∈ listingEventPairs txns, p.1 = p.2.token_data_id_hash := by
  intro p hp
  unfold listingEventPairs at hp
  rw [List.mem_flatMap] at hp
  obtain ⟨t, ht, hpt⟩ := hp
  cases t with
  | otherTransaction => simp at hpt
  | UserTransaction u => exact eventListingPairs_keyinv u.version u.timestamp u.events p hpt

/-- An overwriting insert of a pair keyed by its row's hash preserves the
key invariant. -/
theorem amInsert_keyinv {α : Type} (key : α → String)
    (m : List (String × α)) (k : String) (v : α)
    (hm : ∀ p ∈ m, p.1 = key p.2) (hv : k = key v) :
    ∀ p ∈ amInsert m k v, p.1 = key p.2 := by
  intro p hp
  unfold amInsert at hp
  by_cases hmem : m.any (fun q => q.1 = k)
  · rw [if_pos hmem] at hp
    rcases List.mem_map.mp hp with ⟨q, hq, hqp⟩
    by_cases hqk : q.1 = k
    · rw [if_pos hqk] at hqp
      subst hqp
      exact hv
    · rw [if_neg hqk] at hqp
      subst hqp
      exact hm q hq
  · rw [if_neg hmem] at hp
    rcases List.mem_append.mp hp with hq | hq
    · exact hm p hq
    · simp at hq
      subst hq
      exact hv

/-- A fold of key-invariant inserts preserves the key invariant. -/
theorem foldl_amInsert_keyinv {α : Type} (key : α → String)
    (ps : List (String × α)) (m : List (String × α))
    (hm : ∀ p ∈ m, p.1 = key p.2) (hps : ∀ p ∈ ps, p.1 = key p.2) :
    ∀ p ∈ ps.foldl (fun a q => amInsert a q.1 q.2) m, p.1 = key p.2 := by
  induction ps generalizing m with
  | nil => exact hm
  | cons q rest ih =>
    simp only [List.foldl_cons]
    exact ih _
      (amInsert_keyinv key m q.1 q.2 hm (hps q (by simp)))
      (fun p hp => hps p (by simp [hp]))

/-- A successful `accumStep` extends the listing map with the
transaction's per-transaction map. -/
theorem accumStep_listings (acc acc1 : AccumState) (txn : APITransaction)
    (h : accumStep acc txn = .ok acc1) :
    ∃ mt, CurrentMarketplaceListing.from_transaction txn = .ok mt
      ∧ acc1.current_marketplace_listings
          = amExtend acc.current_marketplace_listings mt := by
  unfold accumStep at h
  cases h1 : TokenActivity.from_transaction txn with
  | error e =>
    rw [h1] at h
    simp [Bind.bind, Except.bind] at h
  | ok acts =>
    rw [h1] at h
    simp only [Bind.bind, Except.bind] at h
    cases h2 : CurrentMarketplaceListing.from_transaction txn with
    | error e =>
      rw [h2] at h
      simp at h
    | ok mt =>
      rw [h2] at h
      cases h3 : CurrentCollectionVolume.from_transaction txn with
      | error e =>
        rw [h3] at h
        simp at h
      | ok vol =>
        rw [h3] at h
        simp only [pure, Except.pure] at h
        injection h with h4
        exact ⟨mt, rfl, by rw [← h4]⟩

/-- The batch accumulation loop's listing map: keys are distinct, every
pair is keyed by its row's hash, and lookup returns the **last**
qualifying event's row for that hash (falling back to the initial
accumulator). -/
theorem batch_listing_map (txns : List APITransaction) (acc0 acc : AccumState)
    (h : txns.foldlM accumStep acc0 = .ok acc)
    (hnd : (acc0.current_marketplace_listings.map Prod.fst).Nodup)
    (hinv : ∀ p ∈ acc0.current_marketplace_listings, p.1 = p.2.token_data_id_hash) :
    ((acc.current_marketplace_listings.map Prod.fst).Nodup)
      ∧ (∀ p ∈ acc.current_marketplace_listings, p.1 = p.2.token_data_id_hash)
      ∧ (∀ k, amLookup acc.current_marketplace_listings k
          = (((listingEventPairs txns).reverse.find? (fun p => p.1 = k)).map
              Prod.snd).or (amLookup acc0.current_marketplace_listings k)) := by
  induction txns generalizing acc0 with
  | nil =>
    rw [List.foldlM_nil] at h
    simp only [pure, Except.pure] at h
    injection h with h2
    subst h2
    refine ⟨hnd, hinv, fun k => ?_⟩
    simp [listingEventPairs]
  | cons t rest ih =>
    rw [List.foldlM_cons] at h
    cases hstep : accumStep acc0 t with
    | error e =>
      rw [hstep] at h
      simp [Bind.bind, Except.bind] at h
    | ok acc1 =>
      rw [hstep] at h
      simp only [Bind.bind, Except.bind] at h
      obtain ⟨mt, hmt, hlist⟩ := accumStep_listings acc0 acc1 t hstep
      have hpairs := from_transaction_pairs t mt hmt
      have hmtnd : (mt.map Prod.fst).Nodup := by
        rw [hpairs]
        exact foldl_amInsert_nodup_keys _ [] (by simp)
      have hmtinv : ∀ p ∈ mt, p.1 = p.2.token_data_id_hash := by
        rw [hpairs]
        exact foldl_amInsert_keyinv _ _ [] (by simp)
          (listingEventPairs_keyinv [t])
      have hacc1nd : (acc1.current_marketplace_listings.map Prod.fst).Nodup := by
        rw [hlist]
        exact foldl_amInsert_nodup_keys mt _ hnd
      have hacc1inv : ∀ p ∈ acc1.current_marketplace_listings,
          p.1 = p.2.token_data_id_hash := by
        rw [hlist]
        exact foldl_amInsert_keyinv _ mt _ hinv hmtinv
      obtain ⟨hns, hin, hlk⟩ := ih acc1 h hacc1nd hacc1inv
      refine ⟨hns, hin, fun k => ?_⟩
      rw [hlk k]
      have hlk1 : amLookup acc1.current_marketplace_listings k
          = (((listingEventPairs [t]).reverse.find? (fun p => p.1 = k)).map
              Prod.snd).or (amLookup acc0.current_marketplace_listings k) := by
        rw [hlist]
        show amLookup (mt.foldl (fun a p => amInsert a p.1 p.2)
          acc0.current_marketplace_listings) k = _
        rw [amLookup_foldl_amInsert, find?_reverse_of_nodup_keys mt hmtnd]
        have hmteq : (mt.find? (fun p => p.1 = k)).map Prod.snd
            = ((listingEventPairs [t]).reverse.find? (fun p => p.1 = k)).map
                Prod.snd := by
          have h0 := amLookup_foldl_amInsert (listingEventPairs [t]) [] k
          rw [← hpairs] at h0
          simpa [amLookup] using h0
        rw [hmteq]
      rw [hlk1, listingEventPairs_cons t rest, List.reverse_append,
        List.find?_append]
      rw [option_map_or, Option.or_assoc]

/-- C10: within every batch, current marketplace listing rows are keyed by
`token_data_id_hash` alone.  The accumulated map has pairwise-distinct hash
keys, each key is its row's hash, looking any key up yields the row of the
**last** qualifying event with that hash in the batch (overwriting any
prior row regardless of `market_address`), the row set handed to the
writer has at most one row per hash, and the database insert conflicts on
`token_data_id_hash` alone — a row whose hash is already stored adds no
new row even when its `market_address` differs. -/
theorem c10_listings_keyed_by_token_hash_alone
    (txns : List APITransaction) (acc : AccumState)
    (h : batchAccum txns = .ok acc) :
    ((acc.current_marketplace_listings.map Prod.fst).Nodup)
      ∧ (∀ k, amLookup acc.current_marketplace_listings k
          = ((listingEventPairs txns).reverse.find? (fun p => p.1 = k)).map
              Prod.snd)
      ∧ (((sortedRows acc).current_marketplace_listings.map
            (fun r => r.token_data_id_hash)).Nodup)
      ∧ (∀ (table : List CurrentMarketplaceListing)
            (r : CurrentMarketplaceListing),
          table.any (fun s => s.token_data_id_hash = r.token_data_id_hash) = true →
          (insert_current_marketplace_listings table [r]).length = table.length) := by
  obtain ⟨hnd, hinv, hlk⟩ := batch_listing_map txns AccumState.empty acc h
    (by simp [AccumState.empty]) (by simp [AccumState.empty])
  refine ⟨hnd, fun k => ?_, ?_, fun table r hany => ?_⟩
  · rw [hlk k]
    simp [amLookup, AccumState.empty]
  · have hperm : ((sortedRows acc).current_marketplace_listings).Perm
        (acc.current_marketplace_listings.map Prod.snd) :=
      List.perm_insertionSort _ _
    have hmapperm := hperm.map (fun r => r.token_data_id_hash)
    have heq : (acc.current_marketplace_listings.map Prod.snd).map
        (fun r => r.token_data_id_hash)
        = acc.current_marketplace_listings.map Prod.fst := by
      rw [List.map_map]
      apply List.map_congr_left
      intro p hp
      exact (hinv p hp).symm
    apply hmapperm.nodup_iff.mpr
    rw [heq]
    exact hnd
  · unfold insert_current_marketplace_listings
    simp only [List.foldl_cons, List.foldl_nil]
    rw [if_pos hany, List.length_map]

/-- Witness for C10 at the one-listing batch. -/
theorem c10_listings_keyed_witness :
    batchAccum [txnOneList] = .ok oneListAccum
      ∧ (oneListAccum.current_marketplace_listings.map Prod.fst).Nodup :=
  ⟨by decide,
    (c10_listings_keyed_by_token_hash_alone [txnOneList] oneListAccum (by decide)).1⟩

end AptosIndexer
